import Mathlib

/-!
Verification of the Deckster director core (state machine, layout selection,
content transformation, stage-6 content generation) against its
natural-language specification.  Python strings are modelled as `List Char`
(`PyStr`); dictionaries as association lists; external calls (model
inference, rendering service, text service) as explicit oracle parameters.
-/

namespace Deckster

/-- Python `str` modelled as a list of characters. -/
abbrev PyStr := List Char

/-! ## Workflow state machine (`src/workflows/state_machine.py`) -/

/-- `WorkflowOrchestrator.STATES`. -/
def STATES : List String :=
  ["PROVIDE_GREETING", "ASK_CLARIFYING_QUESTIONS", "CREATE_CONFIRMATION_PLAN",
   "GENERATE_STRAWMAN", "REFINE_STRAWMAN", "CONTENT_GENERATION"]

/-- `WorkflowOrchestrator.TRANSITIONS`: the transition table, modelled as a
keyed lookup (`none` when the key is absent, as for a Python dict). -/
def TRANSITIONS (s : String) : Option (List String) :=
  if s = "PROVIDE_GREETING" then
    some ["ASK_CLARIFYING_QUESTIONS"]
  else if s = "ASK_CLARIFYING_QUESTIONS" then
    some ["CREATE_CONFIRMATION_PLAN"]
  else if s = "CREATE_CONFIRMATION_PLAN" then
    some ["GENERATE_STRAWMAN", "ASK_CLARIFYING_QUESTIONS", "CREATE_CONFIRMATION_PLAN"]
  else if s = "GENERATE_STRAWMAN" then
    some ["REFINE_STRAWMAN", "CONTENT_GENERATION"]
  else if s = "REFINE_STRAWMAN" then
    some ["REFINE_STRAWMAN", "CONTENT_GENERATION"]
  else if s = "CONTENT_GENERATION" then
    some []
  else
    none

/-- `WorkflowOrchestrator.validate_transition`. -/
def validate_transition (from_state to_state : String) : Bool :=
  match TRANSITIONS from_state with
  | none => false
  | some l => decide (to_state ∈ l)

/-- `WorkflowOrchestrator.get_next_states`. -/
def get_next_states (current_state : String) : List String :=
  (TRANSITIONS current_state).getD []

/-- `WorkflowOrchestrator.validate_state`. -/
def validate_state (state : String) : Bool :=
  decide (state ∈ STATES)

/-- The six workflow stages as an enumeration, with their code-level names. -/
inductive Stage where
  | provideGreeting
  | askClarifyingQuestions
  | createConfirmationPlan
  | generateStrawman
  | refineStrawman
  | contentGeneration
deriving DecidableEq

/-- The code-level state name of a stage. -/
def Stage.name : Stage → String
  | .provideGreeting => "PROVIDE_GREETING"
  | .askClarifyingQuestions => "ASK_CLARIFYING_QUESTIONS"
  | .createConfirmationPlan => "CREATE_CONFIRMATION_PLAN"
  | .generateStrawman => "GENERATE_STRAWMAN"
  | .refineStrawman => "REFINE_STRAWMAN"
  | .contentGeneration => "CONTENT_GENERATION"

instance : Fintype Stage where
  elems := {Stage.provideGreeting, Stage.askClarifyingQuestions,
            Stage.createConfirmationPlan, Stage.generateStrawman,
            Stage.refineStrawman, Stage.contentGeneration}
  complete := by intro s; cases s <;> decide

theorem validate_transition_iff (s t : String) :
    validate_transition s t = true ↔ t ∈ get_next_states s := by
  unfold validate_transition get_next_states
  cases h : TRANSITIONS s with
  | none => simp
  | some l => simp

/-- C1: the transition table of the six-stage workflow is exactly the fixed
table of the spec, and `validate_transition s t` holds iff `t` is a member of
`next_states s`, for every pair of stages. -/
theorem transition_table_exact :
    (get_next_states "PROVIDE_GREETING" = ["ASK_CLARIFYING_QUESTIONS"]
      ∧ get_next_states "ASK_CLARIFYING_QUESTIONS" = ["CREATE_CONFIRMATION_PLAN"]
      ∧ get_next_states "CREATE_CONFIRMATION_PLAN"
          = ["GENERATE_STRAWMAN", "ASK_CLARIFYING_QUESTIONS", "CREATE_CONFIRMATION_PLAN"]
      ∧ get_next_states "GENERATE_STRAWMAN" = ["REFINE_STRAWMAN", "CONTENT_GENERATION"]
      ∧ get_next_states "REFINE_STRAWMAN" = ["REFINE_STRAWMAN", "CONTENT_GENERATION"]
      ∧ get_next_states "CONTENT_GENERATION" = [])
    ∧ ∀ s t : Stage, validate_transition s.name t.name = true ↔ t.name ∈ get_next_states s.name := by
  refine ⟨by decide, ?_⟩
  intro s t
  exact validate_transition_iff s.name t.name

/-- C9: on any string that is not one of the six stage names the state machine
is total: every transition out of it is rejected and it has no next states. -/
theorem invalid_state_total (s : String) (hs : s ∉ STATES) :
    (∀ t : String, validate_transition s t = false) ∧ get_next_states s = [] := by
  have hnone : TRANSITIONS s = none := by
    simp only [STATES, List.mem_cons, List.not_mem_nil, or_false] at hs
    push_neg at hs
    obtain ⟨h1, h2, h3, h4, h5, h6⟩ := hs
    unfold TRANSITIONS
    simp [h1, h2, h3, h4, h5, h6]
  constructor
  · intro t
    unfold validate_transition
    rw [hnone]
  · unfold get_next_states
    rw [hnone]
    rfl

/-- Witness for C9 at the unused `LAYOUT_GENERATION` placeholder state. -/
theorem invalid_state_total_witness :
    "LAYOUT_GENERATION" ∉ STATES
      ∧ validate_transition "LAYOUT_GENERATION" "CONTENT_GENERATION" = false
      ∧ get_next_states "LAYOUT_GENERATION" = [] := by
  have h : "LAYOUT_GENERATION" ∉ STATES := by decide
  obtain ⟨h1, h2⟩ := invalid_state_total "LAYOUT_GENERATION" h
  exact ⟨h, h1 "CONTENT_GENERATION", h2⟩

/-! ## Python string helpers -/

/-- Last index `i < n` satisfying `p`, as an `Int`; `-1` when there is none.
This is the scan a Python `str.rfind` performs. -/
def lastHit (p : Nat → Bool) (n : Nat) : Int :=
  (List.range n).foldl (fun acc i => if p i then (i : Int) else acc) (-1)

/-- Python `hay.rfind(needle)`: start index of the last occurrence, `-1` if absent. -/
def pyRfind (hay needle : PyStr) : Int :=
  lastHit (fun i => needle.isPrefixOf (hay.drop i)) (hay.length + 1)

/-- `needle` occurs in `hay` starting at index `i`. -/
def occursAtB (needle hay : PyStr) (i : Nat) : Bool :=
  needle.isPrefixOf (hay.drop i)

theorem lastHit_succ (p : Nat → Bool) (n : Nat) :
    lastHit p (n + 1) = if p n then (n : Int) else lastHit p n := by
  unfold lastHit
  rw [List.range_succ, List.foldl_append]
  simp

theorem neg_one_le_lastHit (p : Nat → Bool) (n : Nat) : -1 ≤ lastHit p n := by
  induction n with
  | zero => simp [lastHit]
  | succ n ih =>
    rw [lastHit_succ]
    by_cases h : p n = true
    · rw [if_pos h]; omega
    · rw [if_neg h]; exact ih

theorem lastHit_lt (p : Nat → Bool) (n : Nat) : lastHit p n < (n : Int) := by
  induction n with
  | zero => simp [lastHit]
  | succ n ih =>
    rw [lastHit_succ]
    by_cases h : p n = true
    · rw [if_pos h]; omega
    · rw [if_neg h]; omega

theorem le_lastHit (p : Nat → Bool) (n i : Nat) (hi : i < n) (hp : p i = true) :
    (i : Int) ≤ lastHit p n := by
  induction n with
  | zero => omega
  | succ n ih =>
    rw [lastHit_succ]
    by_cases h : p n = true
    · simp [h]; omega
    · have hne : i ≠ n := by
        intro e
        rw [e] at hp
        exact h hp
      simp [h]
      exact ih (by omega)

theorem lastHit_nonneg_hit (p : Nat → Bool) (n : Nat) (h : 0 ≤ lastHit p n) :
    p (lastHit p n).toNat = true ∧ (lastHit p n).toNat < n := by
  induction n with
  | zero => simp [lastHit] at h
  | succ n ih =>
    rw [lastHit_succ] at h ⊢
    by_cases hp : p n = true
    · simp [hp]
    · simp [hp] at h ⊢
      obtain ⟨h1, h2⟩ := ih h
      exact ⟨h1, by omega⟩

theorem lastHit_neg (p : Nat → Bool) (n : Nat) (h : lastHit p n < 0) :
    ∀ i < n, p i = false := by
  induction n with
  | zero => omega
  | succ n ih =>
    rw [lastHit_succ] at h
    by_cases hp : p n = true
    · simp [hp] at h
      omega
    · intro i hi
      rcases Nat.lt_succ_iff_lt_or_eq.mp hi with h' | h'
      · exact ih (by simpa [hp] using h) i h'
      · subst h'
        simpa using hp

theorem occursAtB_lt_length (needle hay : PyStr) (i : Nat) (hne : needle ≠ [])
    (h : occursAtB needle hay i = true) : i < hay.length := by
  by_contra hge
  push_neg at hge
  have hd : hay.drop i = [] := List.drop_eq_nil_of_le hge
  unfold occursAtB at h
  rw [hd] at h
  cases needle with
  | nil => exact hne rfl
  | cons c cs => simp [List.isPrefixOf] at h

theorem pyRfind_nonneg_hit (hay needle : PyStr) (h : 0 ≤ pyRfind hay needle) :
    occursAtB needle hay (pyRfind hay needle).toNat = true := by
  unfold pyRfind at *
  exact (lastHit_nonneg_hit _ _ h).1

theorem le_pyRfind (hay needle : PyStr) (i : Nat)
    (hi : i ≤ hay.length) (hp : occursAtB needle hay i = true) :
    (i : Int) ≤ pyRfind hay needle := by
  unfold pyRfind
  exact le_lastHit _ _ i (by omega) hp

theorem pyRfind_neg (hay needle : PyStr) (hne : needle ≠ [])
    (h : pyRfind hay needle < 0) : ∀ i, occursAtB needle hay i = false := by
  intro i
  by_cases hi : i ≤ hay.length
  · exact lastHit_neg _ _ h i (by omega)
  · by_contra hocc
    simp only [Bool.not_eq_false] at hocc
    have := occursAtB_lt_length needle hay i hne hocc
    omega

/-- `pyRfind` is exactly the greatest occurrence index. -/
theorem pyRfind_eq_of_greatest (hay needle : PyStr) (j : Nat)
    (hocc : occursAtB needle hay j = true)
    (hmax : ∀ k, occursAtB needle hay k = true → k ≤ j) :
    pyRfind hay needle = (j : Int) := by
  have hj : j < hay.length := by
    by_cases hne : needle = []
    · subst hne
      have := hmax (j + 1) (by simp [occursAtB])
      omega
    · exact occursAtB_lt_length needle hay j hne hocc
  have h1 : (j : Int) ≤ pyRfind hay needle := le_pyRfind hay needle j (by omega) hocc
  have h0 : 0 ≤ pyRfind hay needle := by omega
  have h2 := pyRfind_nonneg_hit hay needle h0
  have h3 := hmax _ h2
  omega

/-! ## The float threshold `max_chars * 0.7`

Python evaluates `last_delimiter > max_chars * 0.7` in IEEE-754 binary64:
the int `max_chars` is converted to a double (round-to-nearest-even), the
product with the double nearest 0.7 is rounded to nearest-even, and the int
`last_delimiter` is compared exactly against that double.  The functions
below reproduce this bit-exactly with integer arithmetic, representing the
resulting double as an exact numerator over `2^53` (valid for every
`max_chars` below `2^1024`, past which Python's int-to-float conversion
itself raises `OverflowError`). -/

/-- Number of bits of `n` (`0` for `n = 0`), by binary search over shifts
(exact for every `n` below `2^2047`). -/
def bitLen (n : Nat) : Nat :=
  let r := [1024, 512, 256, 128, 64, 32, 16, 8, 4, 2, 1].foldl
    (fun p s => if 2 ^ s ≤ p.1 then (p.1 / 2 ^ s, p.2 + s) else p) (n, 0)
  if r.1 = 0 then 0 else r.2 + 1

/-- Drop the `s` low bits of `n`, rounding half to even. -/
def rne (n s : Nat) : Nat :=
  if s = 0 then n
  else
    if 2 ^ (s - 1) < n % 2 ^ s then n / 2 ^ s + 1
    else if n % 2 ^ s < 2 ^ (s - 1) then n / 2 ^ s
    else if (n / 2 ^ s) % 2 = 0 then n / 2 ^ s else n / 2 ^ s + 1

/-- The IEEE-754 double nearest `0.7`, as its exact numerator over `2^53`. -/
def FL07_NUM : Nat := 6305039478318694

/-- The double `float(m)` as a natural number (exact below `2^53`). -/
def flNat (m : Nat) : Nat :=
  if bitLen m ≤ 53 then m
  else rne m (bitLen m - 53) * 2 ^ (bitLen m - 53)

/-- Numerator over `2^53` of the Python double `max_chars * 0.7`. -/
def pyFloat07Mul (m : Nat) : Nat :=
  if bitLen (flNat m * FL07_NUM) ≤ 53 then flNat m * FL07_NUM
  else rne (flNat m * FL07_NUM) (bitLen (flNat m * FL07_NUM) - 53)
    * 2 ^ (bitLen (flNat m * FL07_NUM) - 53)

/-- Python `last_delimiter > max_chars * 0.7`: exact int-vs-double
comparison against the rounded product. -/
def pyGt07 (d : Int) (m : Nat) : Bool :=
  decide ((pyFloat07Mul m : Int) < d * 2 ^ 53)

theorem pyGt07_neg (d : Int) (m : Nat) (h : d < 0) : pyGt07 d m = false := by
  unfold pyGt07
  have h53 : (0 : Int) < 2 ^ 53 := by norm_num
  have hd : d * 2 ^ 53 < 0 := mul_neg_of_neg_of_pos h h53
  have ht : (0 : Int) ≤ (pyFloat07Mul m : Nat) := Int.natCast_nonneg _
  simp only [decide_eq_false_iff_not, not_lt]
  omega

theorem pyGt07_mono (d d' : Int) (m : Nat) (h : d ≤ d') (ht : pyGt07 d m = true) :
    pyGt07 d' m = true := by
  unfold pyGt07 at *
  simp only [decide_eq_true_eq] at *
  have : d * 2 ^ 53 ≤ d' * 2 ^ 53 := by
    have h53 : (0 : Int) ≤ 2 ^ 53 := by norm_num
    exact mul_le_mul_of_nonneg_right h h53
  omega

/-! ## `ContentTransformer.truncate` (`src/utils/content_transformer.py`) -/

/-- The `"..."` suffix `truncate` appends when `add_ellipsis` is set. -/
def ellipsis (addEllipsis : Bool) : PyStr :=
  if addEllipsis then ['.', '.', '.'] else []

/-- `ContentTransformer.truncate(text, max_chars, add_ellipsis)`.  The
sentence-boundary threshold `last_delimiter > max_chars * 0.7` is the exact
IEEE-754 comparison `pyGt07`. -/
def truncate (text : PyStr) (maxChars : Nat) (addEllipsis : Bool) : PyStr :=
  if text = [] then []
  else if text.length ≤ maxChars then text
  else if pyGt07 (pyRfind (text.take maxChars) ['.', ' ']) maxChars then
    (text.take maxChars).take ((pyRfind (text.take maxChars) ['.', ' ']).toNat + 1)
  else if pyGt07 (pyRfind (text.take maxChars) ['!', ' ']) maxChars then
    (text.take maxChars).take ((pyRfind (text.take maxChars) ['!', ' ']).toNat + 1)
  else if pyGt07 (pyRfind (text.take maxChars) ['?', ' ']) maxChars then
    (text.take maxChars).take ((pyRfind (text.take maxChars) ['?', ' ']).toNat + 1)
  else if 0 < pyRfind (text.take maxChars) [' '] then
    (text.take maxChars).take (pyRfind (text.take maxChars) [' ']).toNat ++ ellipsis addEllipsis
  else (text.take maxChars) ++ ellipsis addEllipsis

theorem truncate_length_le (text : PyStr) (maxChars : Nat) (addEllipsis : Bool) :
    (truncate text maxChars addEllipsis).length ≤ maxChars + (ellipsis addEllipsis).length := by
  unfold truncate
  split_ifs with h1 h2 h3 h4 h5 h6 <;>
    (try simp only [List.length_nil, List.length_take, List.length_append]) <;> omega

theorem truncate_of_length_le (text : PyStr) (maxChars : Nat) (addEllipsis : Bool)
    (h : text.length ≤ maxChars) : truncate text maxChars addEllipsis = text := by
  unfold truncate
  by_cases he : text = []
  · rw [if_pos he, he]
  · rw [if_neg he, if_pos h]

theorem truncate_idem (text : PyStr) (maxChars : Nat) :
    truncate (truncate text maxChars false) maxChars false
      = truncate text maxChars false := by
  have hlen := truncate_length_le text maxChars false
  simp only [ellipsis, if_neg Bool.false_ne_true, List.length_nil, Nat.add_zero] at hlen
  exact truncate_of_length_le _ maxChars false hlen

/-- C5: `truncate` returns at most `max_chars` characters (at most
`max_chars + 3` when the ellipsis is requested), is idempotent, and is the
identity on text already within budget. -/
theorem truncate_budget_idem_identity (text : PyStr) (maxChars : Nat) :
    (truncate text maxChars false).length ≤ maxChars
    ∧ (truncate text maxChars true).length ≤ maxChars + 3
    ∧ truncate (truncate text maxChars false) maxChars false = truncate text maxChars false
    ∧ (∀ addEllipsis : Bool, text.length ≤ maxChars → truncate text maxChars addEllipsis = text) := by
  refine ⟨?_, ?_, truncate_idem text maxChars, fun b h => truncate_of_length_le text maxChars b h⟩
  · have := truncate_length_le text maxChars false
    simpa [ellipsis] using this
  · have := truncate_length_le text maxChars true
    simpa [ellipsis] using this

/-- Witness for C5 on concrete strings: an over-budget text is cut to the
budget and a within-budget text is returned unchanged. -/
theorem truncate_budget_idem_identity_witness :
    (truncate ("the quick brown fox jumps".toList) 10 false).length ≤ 10
    ∧ (truncate ("the quick brown fox jumps".toList) 10 true).length ≤ 13
    ∧ truncate (truncate ("the quick brown fox jumps".toList) 10 false) 10 false
        = truncate ("the quick brown fox jumps".toList) 10 false
    ∧ ("ok".toList.length ≤ 10 ∧ truncate ("ok".toList) 10 false = "ok".toList) := by
  obtain ⟨h1, h2, h3, h4⟩ := truncate_budget_idem_identity ("the quick brown fox jumps".toList) 10
  obtain ⟨-, -, -, h4'⟩ := truncate_budget_idem_identity ("ok".toList) 10
  exact ⟨h1, h2, h3, by decide, h4' false (by decide)⟩

/-- Some sentence-ending delimiter (`". "`, `"! "`, `"? "`) occurs at index `i`. -/
def sentenceDelimAt (tr : PyStr) (i : Nat) : Bool :=
  occursAtB ['.', ' '] tr i || occursAtB ['!', ' '] tr i || occursAtB ['?', ' '] tr i

/-- The truncation algorithm exactly as the specification sentence words it:
cut at the last sentence-ending punctuation (any of `". "`, `"! "`, `"? "`)
found AT OR AFTER 70% of `max_chars` when one exists, else at the last space,
else hard-cut.  Used to compare the spec's words against the code. -/
def truncateClaimed (text : PyStr) (maxChars : Nat) (addEllipsis : Bool) : PyStr :=
  if text = [] then []
  else if text.length ≤ maxChars then text
  else if 7 * (maxChars : Int)
      ≤ 10 * lastHit (sentenceDelimAt (text.take maxChars)) ((text.take maxChars).length + 1) then
    (text.take maxChars).take
      ((lastHit (sentenceDelimAt (text.take maxChars)) ((text.take maxChars).length + 1)).toNat + 1)
  else if 0 < pyRfind (text.take maxChars) [' '] then
    (text.take maxChars).take (pyRfind (text.take maxChars) [' ']).toNat ++ ellipsis addEllipsis
  else (text.take maxChars) ++ ellipsis addEllipsis

set_option maxRecDepth 100000 in
/-- Counterexample to C6: with `max_chars = 20` the last `". "` of the
truncated text sits exactly at 70% of the budget (index 14); the Python
double `20 * 0.7` equals `14.000000000000000888...`, so the code's `>` test
rejects it (the claim's "at or after 70%" rule would cut right after the
period) and the cut falls through to the last-space branch, keeping
`" bb"`.  The second pair of conjuncts shows the cutoff is the double, not
exact 70%: at `max_chars = 90` the double `90 * 0.7` is slightly BELOW 63,
so an occurrence exactly at 70% passes the test there. -/
theorem truncate_seventy_percent_ce :
    truncate ("aaaaaaaaaaaaaa. bb cXYZ".toList) 20 false = "aaaaaaaaaaaaaa. bb".toList
    ∧ truncateClaimed ("aaaaaaaaaaaaaa. bb cXYZ".toList) 20 false = "aaaaaaaaaaaaaa.".toList
    ∧ "aaaaaaaaaaaaaa. bb".toList ≠ "aaaaaaaaaaaaaa.".toList
    ∧ pyGt07 14 20 = false
    ∧ pyGt07 63 90 = true := by
  refine ⟨by decide, by decide, by decide, by decide, by decide⟩

theorem cond_false_of_below (tr : PyStr) (m : Nat) (nd : PyStr)
    (hall : ∀ k, occursAtB nd tr k = true → pyGt07 (k : Int) m = false) :
    ¬(pyGt07 (pyRfind tr nd) m = true) := by
  intro hlt
  rcases le_or_lt 0 (pyRfind tr nd) with h0 | h0
  · have hocc := pyRfind_nonneg_hit tr nd h0
    have hfalse := hall _ hocc
    rw [Int.toNat_of_nonneg h0] at hfalse
    rw [hfalse] at hlt
    exact Bool.false_ne_true hlt
  · rw [pyGt07_neg _ _ h0] at hlt
    exact Bool.false_ne_true hlt

theorem occursAtB_bound_ext (tr : PyStr) (m : Nat) (nd : PyStr) (hnd : nd ≠ [])
    (htr : tr.length ≤ m) (P : Nat → Prop)
    (h : ∀ k, k < m → occursAtB nd tr k = true → P k) :
    ∀ k, occursAtB nd tr k = true → P k := by
  intro k hk
  exact h k (by have := occursAtB_lt_length nd tr k hnd hk; omega) hk

/-- C6 amended: for over-budget text the code cuts at the last `". "` when
that occurrence's index exceeds the IEEE-754 double `max_chars * 0.7`
(`pyGt07`; within one rounding error of exact 70%); otherwise at the last
`"! "` under the same test; otherwise at the last `"? "`; otherwise at the
last space provided its index is positive (appending `"..."` only when
requested); otherwise it hard-cuts at `max_chars` (again appending `"..."`
only when requested). -/
theorem truncate_branch_characterization (text : PyStr) (m : Nat) (b : Bool)
    (hover : m < text.length) :
    (∀ j, occursAtB ['.', ' '] (text.take m) j = true →
      (∀ k, k < m → occursAtB ['.', ' '] (text.take m) k = true → k ≤ j) →
      pyGt07 (j : Int) m = true →
      truncate text m b = (text.take m).take (j + 1))
    ∧ ((∀ k, k < m → occursAtB ['.', ' '] (text.take m) k = true → pyGt07 (k : Int) m = false) →
      ∀ j, occursAtB ['!', ' '] (text.take m) j = true →
      (∀ k, k < m → occursAtB ['!', ' '] (text.take m) k = true → k ≤ j) →
      pyGt07 (j : Int) m = true →
      truncate text m b = (text.take m).take (j + 1))
    ∧ ((∀ k, k < m → occursAtB ['.', ' '] (text.take m) k = true → pyGt07 (k : Int) m = false) →
      (∀ k, k < m → occursAtB ['!', ' '] (text.take m) k = true → pyGt07 (k : Int) m = false) →
      ∀ j, occursAtB ['?', ' '] (text.take m) j = true →
      (∀ k, k < m → occursAtB ['?', ' '] (text.take m) k = true → k ≤ j) →
      pyGt07 (j : Int) m = true →
      truncate text m b = (text.take m).take (j + 1))
    ∧ ((∀ k, k < m → sentenceDelimAt (text.take m) k = true → pyGt07 (k : Int) m = false) →
      ∀ j, 0 < j → occursAtB [' '] (text.take m) j = true →
      (∀ k, k < m → occursAtB [' '] (text.take m) k = true → k ≤ j) →
      truncate text m b = (text.take m).take j ++ ellipsis b)
    ∧ ((∀ k, k < m → sentenceDelimAt (text.take m) k = true → pyGt07 (k : Int) m = false) →
      (∀ k, k < m → occursAtB [' '] (text.take m) k = true → k = 0) →
      truncate text m b = (text.take m) ++ ellipsis b) := by
  have hne : text ≠ [] := by
    intro h
    rw [h] at hover
    simp at hover
  have hlen : ¬(text.length ≤ m) := by omega
  have htr : (text.take m).length ≤ m := by
    simp [List.length_take]
  have hsent : ∀ nd, nd ∈ [['.', ' '], ['!', ' '], ['?', ' ']] →
      (∀ k, k < m → occursAtB nd (text.take m) k = true → pyGt07 (k : Int) m = false) →
      ¬(pyGt07 (pyRfind (text.take m) nd) m = true) := by
    intro nd hmem hall
    refine cond_false_of_below (text.take m) m nd ?_
    refine occursAtB_bound_ext (text.take m) m nd ?_ htr _ hall
    fin_cases hmem <;> simp
  refine ⟨?_, ?_, ?_, ?_, ?_⟩
  · intro j hj hmax hthr
    have hr : pyRfind (text.take m) ['.', ' '] = (j : Int) := by
      refine pyRfind_eq_of_greatest _ _ j hj ?_
      exact occursAtB_bound_ext (text.take m) m _ (by simp) htr _ hmax
    unfold truncate
    rw [if_neg hne, if_neg hlen, if_pos (by rw [hr]; exact hthr)]
    rw [hr]
    simp
  · intro hbelow j hj hmax hthr
    have hc1 := hsent ['.', ' '] (by simp) hbelow
    have hr : pyRfind (text.take m) ['!', ' '] = (j : Int) := by
      refine pyRfind_eq_of_greatest _ _ j hj ?_
      exact occursAtB_bound_ext (text.take m) m _ (by simp) htr _ hmax
    unfold truncate
    rw [if_neg hne, if_neg hlen, if_neg hc1, if_pos (by rw [hr]; exact hthr)]
    rw [hr]
    simp
  · intro hb1 hb2 j hj hmax hthr
    have hc1 := hsent ['.', ' '] (by simp) hb1
    have hc2 := hsent ['!', ' '] (by simp) hb2
    have hr : pyRfind (text.take m) ['?', ' '] = (j : Int) := by
      refine pyRfind_eq_of_greatest _ _ j hj ?_
      exact occursAtB_bound_ext (text.take m) m _ (by simp) htr _ hmax
    unfold truncate
    rw [if_neg hne, if_neg hlen, if_neg hc1, if_neg hc2, if_pos (by rw [hr]; exact hthr)]
    rw [hr]
    simp
  · intro hbelow j hjpos hj hmax
    have hc1 := hsent ['.', ' '] (by simp) fun k hk h => hbelow k hk (by simp [sentenceDelimAt, h])
    have hc2 := hsent ['!', ' '] (by simp) fun k hk h => hbelow k hk (by simp [sentenceDelimAt, h])
    have hc3 := hsent ['?', ' '] (by simp) fun k hk h => hbelow k hk (by simp [sentenceDelimAt, h])
    have hr : pyRfind (text.take m) [' '] = (j : Int) := by
      refine pyRfind_eq_of_greatest _ _ j hj ?_
      exact occursAtB_bound_ext (text.take m) m _ (by simp) htr _ hmax
    unfold truncate
    rw [if_neg hne, if_neg hlen, if_neg hc1, if_neg hc2, if_neg hc3,
      if_pos (by rw [hr]; exact_mod_cast hjpos)]
    rw [hr]
    simp
  · intro hbelow hsp
    have hc1 := hsent ['.', ' '] (by simp) fun k hk h => hbelow k hk (by simp [sentenceDelimAt, h])
    have hc2 := hsent ['!', ' '] (by simp) fun k hk h => hbelow k hk (by simp [sentenceDelimAt, h])
    have hc3 := hsent ['?', ' '] (by simp) fun k hk h => hbelow k hk (by simp [sentenceDelimAt, h])
    have hc4 : ¬(0 < pyRfind (text.take m) [' ']) := by
      intro hpos
      have hocc := pyRfind_nonneg_hit (text.take m) [' '] (by omega)
      have hk := occursAtB_lt_length [' '] (text.take m) _ (by simp) hocc
      have := hsp _ (by omega) hocc
      omega
    unfold truncate
    rw [if_neg hne, if_neg hlen, if_neg hc1, if_neg hc2, if_neg hc3, if_neg hc4]

set_option maxRecDepth 100000 in
/-- Witness for the amended C6 at concrete inputs: a `". "` past the
threshold wins over a later space; with no sentence punctuation the last
space wins. -/
theorem truncate_branch_characterization_witness :
    truncate ("aaaa bbbb cc. dXYZ".toList) 15 false = "aaaa bbbb cc.".toList
    ∧ truncate ("hello brave new worlds".toList) 14 false = "hello brave".toList := by
  constructor
  · have h := (truncate_branch_characterization ("aaaa bbbb cc. dXYZ".toList) 15 false
      (by decide)).1 12 (by decide) (by decide) (by decide)
    rw [h]
    decide
  · have h := (truncate_branch_characterization ("hello brave new worlds".toList) 14 false
      (by decide)).2.2.2.1 (by decide) 11 (by decide) (by decide) (by decide)
    rw [h]
    decide

/-- C10: for over-budget text, when some sentence-ending delimiter passes
the code's threshold (its index exceeds the IEEE-754 double
`max_chars * 0.7`) the result is identical with and without `add_ellipsis`
(no `"..."` is ever appended on the sentence branch); when no delimiter
passes the threshold, `add_ellipsis = true` appends exactly `"..."` to the
`add_ellipsis = false` result (the space and hard-cut branches). -/
theorem truncate_ellipsis_only_on_fallback (text : PyStr) (m : Nat)
    (hover : m < text.length) :
    ((∃ i, i < m ∧ pyGt07 (i : Int) m = true ∧ sentenceDelimAt (text.take m) i = true) →
      truncate text m true = truncate text m false)
    ∧ ((∀ i, i < m → sentenceDelimAt (text.take m) i = true → pyGt07 (i : Int) m = false) →
      truncate text m true = truncate text m false ++ ['.', '.', '.']) := by
  have hne : text ≠ [] := by
    intro h
    rw [h] at hover
    simp at hover
  have hlen : ¬(text.length ≤ m) := by omega
  have htr : (text.take m).length ≤ m := by
    simp [List.length_take]
  constructor
  · rintro ⟨i, hi, hthr, hdel⟩
    unfold truncate
    rw [if_neg hne, if_neg hlen, if_neg hne, if_neg hlen]
    have hup : ∀ nd : PyStr, nd ≠ [] → occursAtB nd (text.take m) i = true →
        pyGt07 (pyRfind (text.take m) nd) m = true := by
      intro nd hnd hocc
      have hlt := occursAtB_lt_length nd (text.take m) i hnd hocc
      have hge := le_pyRfind (text.take m) nd i (by omega) hocc
      exact pyGt07_mono _ _ m hge hthr
    simp only [sentenceDelimAt, Bool.or_eq_true] at hdel
    rcases hdel with (h1 | h2) | h3
    · rw [if_pos (hup _ (by simp) h1), if_pos (hup _ (by simp) h1)]
    · by_cases hc1 : pyGt07 (pyRfind (text.take m) ['.', ' ']) m = true
      · rw [if_pos hc1, if_pos hc1]
      · rw [if_neg hc1, if_neg hc1, if_pos (hup _ (by simp) h2), if_pos (hup _ (by simp) h2)]
    · by_cases hc1 : pyGt07 (pyRfind (text.take m) ['.', ' ']) m = true
      · rw [if_pos hc1, if_pos hc1]
      · by_cases hc2 : pyGt07 (pyRfind (text.take m) ['!', ' ']) m = true
        · rw [if_neg hc1, if_neg hc1, if_pos hc2, if_pos hc2]
        · rw [if_neg hc1, if_neg hc1, if_neg hc2, if_neg hc2,
            if_pos (hup _ (by simp) h3), if_pos (hup _ (by simp) h3)]
  · intro hbelow
    have hall : ∀ nd, nd ∈ [['.', ' '], ['!', ' '], ['?', ' ']] →
        ¬(pyGt07 (pyRfind (text.take m) nd) m = true) := by
      intro nd hmem
      refine cond_false_of_below (text.take m) m nd ?_
      refine occursAtB_bound_ext (text.take m) m nd ?_ htr _ ?_
      · fin_cases hmem <;> simp
      · intro k hk hocc
        refine hbelow k hk ?_
        fin_cases hmem <;> simp [sentenceDelimAt, hocc]
    unfold truncate
    rw [if_neg hne, if_neg hlen, if_neg hne, if_neg hlen,
      if_neg (hall _ (by simp)), if_neg (hall _ (by simp)),
      if_neg (hall _ (by simp)), if_neg (hall _ (by simp)),
      if_neg (hall _ (by simp)), if_neg (hall _ (by simp))]
    by_cases hsp : 0 < pyRfind (text.take m) [' ']
    · rw [if_pos hsp, if_pos hsp]
      simp [ellipsis]
    · rw [if_neg hsp, if_neg hsp]
      simp [ellipsis]

set_option maxRecDepth 100000 in
/-- Witness for C10 at concrete inputs covering both parts. -/
theorem truncate_ellipsis_only_on_fallback_witness :
    truncate ("aaaa bbbb cc. dXYZ".toList) 15 true
      = truncate ("aaaa bbbb cc. dXYZ".toList) 15 false
    ∧ truncate ("hello brave new worlds".toList) 14 true
      = truncate ("hello brave new worlds".toList) 14 false ++ ['.', '.', '.'] := by
  constructor
  · exact (truncate_ellipsis_only_on_fallback ("aaaa bbbb cc. dXYZ".toList) 15
      (by decide)).1 ⟨12, by decide, by decide, by decide⟩
  · exact (truncate_ellipsis_only_on_fallback ("hello brave new worlds".toList) 14
      (by decide)).2 (by decide)

/-! ## Data model (`src/models/agents.py`)

`src/models/content.py` is not in the tree; `GeneratedText`, `EnrichedSlide`
and `EnrichedPresentationStrawman` are modelled from the spec (§3). -/

/-- `Slide` of `src/models/agents.py` (fields the transformer and selector read). -/
structure Slide where
  slide_number : Nat
  slide_id : String
  title : PyStr
  slide_type : String
  layout_id : Option String
  narrative : PyStr
  key_points : List PyStr
  analytics_needed : Option PyStr
  visuals_needed : Option PyStr
  diagrams_needed : Option PyStr
  tables_needed : Option PyStr
  structure_preference : Option PyStr
deriving DecidableEq

/-- `PresentationStrawman` of `src/models/agents.py`. -/
structure PresentationStrawman where
  main_title : PyStr
  overall_theme : PyStr
  slides : List Slide
  design_suggestions : PyStr
  target_audience : PyStr
  presentation_duration : Nat
deriving DecidableEq

/-- A JSON-like content value as held in the transformer's dictionaries. -/
inductive Value where
  | s : PyStr → Value
  | arr : List Value → Value
  | obj : List (String × Value) → Value
  | null : Value

/-- `content` of a generated-text record: a structured mapping (Text Service
v1.1) or a legacy HTML/text string (v1.0). -/
inductive GenContent where
  | text : PyStr → GenContent
  | structured : List (String × Value) → GenContent

/-- Modelled from the spec: `GeneratedText` of the missing
`src/models/content.py`, reduced to the `content` field the transformer
reads. -/
structure GeneratedText where
  content : GenContent

/-- Modelled from the spec: `EnrichedSlide` of the missing
`src/models/content.py` — the original slide paired with optional generated
text and a failure flag. -/
structure EnrichedSlide where
  original_slide : Slide
  slide_id : String
  generated_text : Option GeneratedText
  has_text_failure : Bool

/-- Generation metadata of the enriched strawman (numeric fields; timestamp
and service tag omitted as opaque). -/
structure GenerationMetadata where
  total_slides : Nat
  successful_slides : Nat
  failed_slides : Nat
  generation_time_seconds : Nat

/-- Modelled from the spec: `EnrichedPresentationStrawman` of the missing
`src/models/content.py`. -/
structure EnrichedPresentationStrawman where
  original_strawman : PresentationStrawman
  enriched_slides : List EnrichedSlide
  generation_metadata : GenerationMetadata

/-- One field's constraints inside a layout's content schema.  The real
`LayoutSchemaManager` (not in the tree) stores per-field dictionaries; only
these three numeric keys are ever read by the transformer. -/
structure FieldSpec where
  max_chars : Nat
  max_items : Nat
  max_chars_per_item : Nat
deriving DecidableEq

/-- A layout's `content_schema`: field name to constraints, as an association
list. -/
abbrev FieldSchema := List (String × FieldSpec)

/-- A content dictionary (Python dict preserving insertion order). -/
abbrev ContentDict := List (String × Value)

/-- Schema lookup `fields[name]` (total; theorems assume the key is present). -/
def fget (fields : FieldSchema) (k : String) : FieldSpec :=
  (fields.lookup k).getD ⟨0, 0, 0⟩

/-- Python `name in fields`. -/
def hasField (fields : FieldSchema) (k : String) : Bool :=
  (fields.lookup k).isSome

/-- Python `generated_content.get(name)`. -/
def dget (g : List (String × Value)) (k : String) : Option Value :=
  g.lookup k

/-- Python `a or b` on strings (empty string is falsy). -/
def pyOr (a b : PyStr) : PyStr :=
  if a = [] then b else a

/-- Python truthiness of an `Optional[str]`. -/
def pyTruthy : Option PyStr → Bool
  | some l => l ≠ []
  | none => false

/-- Characters Python `str.strip()` removes. -/
def isPyWs (c : Char) : Bool :=
  c == ' ' || c == '\t' || c == '\n' || c == '\r' || c == '\x0b' || c == '\x0c'

/-- Python `str.strip()`. -/
def pyStrip (l : PyStr) : PyStr :=
  ((l.dropWhile isPyWs).reverse.dropWhile isPyWs).reverse

/-- The guarded content access every mapper performs:
`enriched_slide and enriched_slide.generated_text and not enriched_slide.has_text_failure`. -/
def usableContent : Option EnrichedSlide → Option GenContent
  | some e =>
    if e.has_text_failure then none
    else
      match e.generated_text with
      | some t => some t.content
      | none => none
  | none => none

/-- Python `line.split(sep, 1)` for a single-character separator, as
`(before, after)` when the separator occurs. -/
def splitFirst (sep : Char) : PyStr → Option (PyStr × PyStr)
  | [] => none
  | c :: rest =>
    if c = sep then some ([], rest)
    else
      match splitFirst sep rest with
      | some (a, b) => some (c :: a, b)
      | none => none

/-- First occurrence of a multi-character separator: `(before, after)`. -/
def splitFirstStr (sep : PyStr) : PyStr → Option (PyStr × PyStr)
  | [] => if sep.isPrefixOf [] then some ([], []) else none
  | c :: rest =>
    if sep.isPrefixOf (c :: rest) then some ([], (c :: rest).drop sep.length)
    else
      match splitFirstStr sep rest with
      | some (a, b) => some (c :: a, b)
      | none => none

/-- Python `sub in hay` (substring containment). -/
def strContains (sub hay : PyStr) : Bool :=
  (splitFirstStr sub hay).isSome

/-! ## `ContentTransformer` mapping functions (`src/utils/content_transformer.py`) -/

/-- `ContentTransformer.generate_placeholder`. -/
def generate_placeholder (asset_description : PyStr) (asset_type : PyStr) : PyStr :=
  if strContains ("**Goal:**".toList) asset_description then
    match splitFirstStr ("**Content:**".toList) asset_description with
    | some (_, after) =>
      let seg :=
        match splitFirstStr ("**Content:**".toList) after with
        | some (a, _) => a
        | none => after
      let content_part :=
        pyStrip (match splitFirstStr ("**Style:**".toList) seg with
          | some (a, _) => a
          | none => seg)
      "PLACEHOLDER_".toList ++ asset_type ++ ": ".toList ++ content_part
    | none => "PLACEHOLDER_".toList ++ asset_type ++ ": ".toList ++ asset_description
  else "PLACEHOLDER_".toList ++ asset_type ++ ": ".toList ++ asset_description

/-- Marker strip step of the legacy line parse: one leading `•`/`-`/`*`/`–`
is removed and the remainder re-stripped. -/
def deMark (line : PyStr) : PyStr :=
  match line with
  | [] => []
  | c :: rest =>
    if c == '•' || c == '-' || c == '*' || c == '–' then pyStrip rest
    else c :: rest

/-- The legacy bullet-parsing loop of `_map_bullet_list` / `_map_chart_insights`
(lines split on newlines; strip; demark; keep non-empty lines longer than 10
characters, truncated to `maxChars`; stop once `maxItems` are collected). -/
def bulletLoopGo (maxItems maxChars : Nat) (acc : List PyStr) : List PyStr → List PyStr
  | [] => acc
  | line :: rest =>
    let l := deMark (pyStrip line)
    if l ≠ [] ∧ 10 < l.length then
      let acc2 := acc ++ [truncate l maxChars false]
      if maxItems ≤ acc2.length then acc2 else bulletLoopGo maxItems maxChars acc2 rest
    else bulletLoopGo maxItems maxChars acc rest

/-- Legacy parse of a plain-string content into list items. -/
def legacyListParse (content : PyStr) (maxItems maxChars : Nat) : List PyStr :=
  bulletLoopGo maxItems maxChars [] (content.splitOn '\n')

/-- Key-points fallback used when legacy parsing yields fewer than 2 items
(and in the no-enriched-content placeholder path). -/
def keyPointBullets (slide : Slide) (maxItems maxChars : Nat) : List PyStr :=
  (slide.key_points.take maxItems).map (fun p => truncate p maxChars false)

/-- `ContentTransformer._map_title_slide` (`now` stands for `datetime.now()`). -/
def map_title_slide (now : PyStr) (slide : Slide) (fields : FieldSchema)
    (presentation : PresentationStrawman) (_enriched : Option EnrichedSlide) : ContentDict :=
  [("main_title", .s (truncate presentation.main_title (fget fields "main_title").max_chars false)),
   ("subtitle", .s (truncate (pyOr slide.narrative presentation.overall_theme)
      (fget fields "subtitle").max_chars false)),
   ("presenter_name", .s "AI-Generated Presentation".toList),
   ("organization", .s (truncate presentation.target_audience
      (fget fields "organization").max_chars false)),
   ("date", .s now)]

/-- `ContentTransformer._map_section_divider`. -/
def map_section_divider (slide : Slide) (fields : FieldSchema)
    (_presentation : PresentationStrawman) (_enriched : Option EnrichedSlide) : ContentDict :=
  [("section_title", .s (truncate slide.title (fget fields "section_title").max_chars false))]

/-- `ContentTransformer._map_closing_slide`. -/
def map_closing_slide (slide : Slide) (fields : FieldSchema)
    (_presentation : PresentationStrawman) (_enriched : Option EnrichedSlide) : ContentDict :=
  [("closing_message", .s (truncate (pyOr slide.title "Thank You".toList)
      (fget fields "closing_message").max_chars false)),
   ("subtitle", .s (truncate (pyOr slide.narrative "Questions & Discussion".toList)
      (fget fields "subtitle").max_chars false)),
   ("contact_email", .s "contact@example.com".toList),
   ("website", .s "www.example.com".toList),
   ("social_media", .s "@example".toList)]

/-- Shared tail of `_map_text_summary` (legacy and placeholder paths). -/
def textSummaryTail (slide : Slide) (fields : FieldSchema) (main_text : PyStr) : ContentDict :=
  [("slide_title", .s (truncate slide.title (fget fields "slide_title").max_chars false)),
   ("subtitle", if hasField fields "subtitle" then
      .s (truncate (slide.narrative.take 80) (fget fields "subtitle").max_chars false)
    else .null),
   ("main_text_content", .s (truncate main_text (fget fields "main_text_content").max_chars false)),
   ("summary", if hasField fields "summary" then
      .s (truncate (if slide.key_points ≠ [] then slide.key_points.getLastD []
            else slide.narrative.take 200) (fget fields "summary").max_chars false)
    else .null)]

/-- `ContentTransformer._map_text_summary`. -/
def map_text_summary (slide : Slide) (fields : FieldSchema)
    (_presentation : PresentationStrawman) (enriched : Option EnrichedSlide) : ContentDict :=
  match usableContent enriched with
  | some (.structured g) =>
    let base : ContentDict :=
      [("slide_title", (dget g "slide_title").getD (.s slide.title)),
       ("main_text_content", (dget g "main_text_content").getD (.s []))]
    let base :=
      match hasField fields "subtitle", dget g "subtitle" with
      | true, some v => base ++ [("subtitle", v)]
      | _, _ => base
    match hasField fields "summary", dget g "summary" with
    | true, some v => base ++ [("summary", v)]
    | _, _ => base
  | some (.text t) => textSummaryTail slide fields t
  | none =>
    textSummaryTail slide fields
      (slide.narrative ++ (if slide.key_points ≠ [] then
        ('\n' :: '\n' :: []) ++ List.intercalate ('\n' :: '\n' :: []) slide.key_points else []))

/-- Shared tail of `_map_bullet_list` (legacy and placeholder paths). -/
def bulletTail (slide : Slide) (fields : FieldSchema) (bullets : List PyStr) : ContentDict :=
  [("slide_title", .s (truncate slide.title (fget fields "slide_title").max_chars false)),
   ("bullets", .arr (bullets.map Value.s))]
  ++ (if hasField fields "subtitle" then
      [("subtitle", .s (truncate slide.narrative (fget fields "subtitle").max_chars false))]
    else [])

/-- `ContentTransformer._map_bullet_list`. -/
def map_bullet_list (slide : Slide) (fields : FieldSchema)
    (_presentation : PresentationStrawman) (enriched : Option EnrichedSlide) : ContentDict :=
  let maxItems := (fget fields "bullets").max_items
  let maxChars := (fget fields "bullets").max_chars_per_item
  match usableContent enriched with
  | some (.structured g) =>
    let base : ContentDict :=
      [("slide_title", (dget g "slide_title").getD (.s slide.title)),
       ("bullets", (dget g "bullets").getD (.arr []))]
    match hasField fields "subtitle", dget g "subtitle" with
    | true, some v => base ++ [("subtitle", v)]
    | _, _ => base
  | some (.text t) =>
    let parsed := legacyListParse t maxItems maxChars
    bulletTail slide fields
      (if parsed.length < 2 then keyPointBullets slide maxItems maxChars else parsed)
  | none => bulletTail slide fields (keyPointBullets slide maxItems maxChars)

/-- `f"Step {idx + 1}"`. -/
def stepTitle (idx : Nat) : PyStr :=
  ("Step " ++ toString (idx + 1)).toList

/-- Per-line title/description split of the legacy numbered-list parse. -/
def numberedItemOfLine (idx : Nat) (line : PyStr) : Value :=
  let td : PyStr × PyStr :=
    match splitFirst ':' line with
    | some (a, b) => (a, b)
    | none =>
      match splitFirst '.' line with
      | some (_, afterDot) =>
        let tdesc := pyStrip afterDot
        match splitFirst '-' tdesc with
        | some (a, b) => (a, b)
        | none => (stepTitle idx, tdesc)
      | none => (stepTitle idx, line)
  .obj [("title", .s (truncate (pyStrip td.1) 40 false)),
        ("description", .s (truncate (pyStrip td.2) 150 false))]

/-- Key-point title/description split of the numbered-list fallback and
placeholder paths (no re-strip in the source here). -/
def numberedItemOfPoint (idx : Nat) (point : PyStr) : Value :=
  let td : PyStr × PyStr :=
    match splitFirst ':' point with
    | some (a, b) => (a, b)
    | none => (stepTitle idx, point)
  .obj [("title", .s (truncate td.1 40 false)),
        ("description", .s (truncate td.2 150 false))]

/-- Shared tail of `_map_numbered_list`. -/
def numberedTail (slide : Slide) (fields : FieldSchema) (items : List Value) : ContentDict :=
  [("slide_title", .s (truncate slide.title (fget fields "slide_title").max_chars false)),
   ("numbered_items", .arr items)]
  ++ (if hasField fields "subtitle" then
      [("subtitle", .s (truncate slide.narrative (fget fields "subtitle").max_chars false))]
    else [])

/-- `ContentTransformer._map_numbered_list`. -/
def map_numbered_list (slide : Slide) (fields : FieldSchema)
    (_presentation : PresentationStrawman) (enriched : Option EnrichedSlide) : ContentDict :=
  let maxItems := (fget fields "numbered_items").max_items
  match usableContent enriched with
  | some (.structured g) =>
    let base : ContentDict :=
      [("slide_title", (dget g "slide_title").getD (.s slide.title)),
       ("numbered_items", (dget g "numbered_items").getD (.arr []))]
    match hasField fields "subtitle", dget g "subtitle" with
    | true, some v => base ++ [("subtitle", v)]
    | _, _ => base
  | some (.text t) =>
    let lines := ((t.splitOn '\n').map pyStrip).filter (fun l => l ≠ [])
    let items := (lines.take maxItems).mapIdx numberedItemOfLine
    numberedTail slide fields
      (if items.length < 2 then (slide.key_points.take maxItems).mapIdx numberedItemOfPoint
       else items)
  | none =>
    numberedTail slide fields ((slide.key_points.take maxItems).mapIdx numberedItemOfPoint)

/-- Shared tail of `_map_image_text`. -/
def imageTextTail (slide : Slide) (fields : FieldSchema) (img text_content : PyStr) : ContentDict :=
  [("slide_title", .s (truncate slide.title (fget fields "slide_title").max_chars false)),
   ("image", .s img),
   ("text_content", .s (truncate text_content (fget fields "text_content").max_chars false))]
  ++ (if hasField fields "subtitle" then
      [("subtitle", .s (truncate (slide.narrative.take 80) (fget fields "subtitle").max_chars false))]
    else [])

/-- `ContentTransformer._map_image_text`. -/
def map_image_text (slide : Slide) (fields : FieldSchema)
    (_presentation : PresentationStrawman) (enriched : Option EnrichedSlide) : ContentDict :=
  let image_placeholder :=
    if pyTruthy slide.visuals_needed then
      generate_placeholder (slide.visuals_needed.getD []) "IMAGE".toList
    else if pyTruthy slide.diagrams_needed then
      generate_placeholder (slide.diagrams_needed.getD []) "DIAGRAM".toList
    else "PLACEHOLDER: Professional image related to slide content".toList
  match usableContent enriched with
  | some (.structured g) =>
    let base : ContentDict :=
      [("slide_title", (dget g "slide_title").getD (.s slide.title)),
       ("image", .s image_placeholder),
       ("text_content", (dget g "text_content").getD (.s []))]
    match hasField fields "subtitle", dget g "subtitle" with
    | true, some v => base ++ [("subtitle", v)]
    | _, _ => base
  | some (.text t) => imageTextTail slide fields image_placeholder t
  | none =>
    imageTextTail slide fields image_placeholder
      (slide.narrative ++ (if slide.key_points ≠ [] then
        ('\n' :: '\n' :: []) ++ List.intercalate ('\n' :: '\n' :: []) slide.key_points else []))

/-- Shared tail of `_map_chart_insights`. -/
def chartTail (slide : Slide) (fields : FieldSchema) (chart : PyStr)
    (insights : List PyStr) : ContentDict :=
  [("slide_title", .s (truncate slide.title (fget fields "slide_title").max_chars false)),
   ("chart_url", .s chart),
   ("key_insights", .arr (insights.map Value.s))]
  ++ (if hasField fields "subtitle" then
      [("subtitle", .s (truncate slide.narrative (fget fields "subtitle").max_chars false))]
    else [])
  ++ (if hasField fields "summary" then
      [("summary", .s (truncate (if slide.key_points ≠ [] then slide.key_points.getLastD []
          else slide.narrative.take 200) (fget fields "summary").max_chars false))]
    else [])

/-- `ContentTransformer._map_chart_insights`. -/
def map_chart_insights (slide : Slide) (fields : FieldSchema)
    (_presentation : PresentationStrawman) (enriched : Option EnrichedSlide) : ContentDict :=
  let chart_placeholder :=
    if pyTruthy slide.analytics_needed then
      generate_placeholder (slide.analytics_needed.getD []) "CHART".toList
    else "PLACEHOLDER: Data visualization for this slide".toList
  let maxItems := (fget fields "key_insights").max_items
  let maxChars := (fget fields "key_insights").max_chars_per_item
  match usableContent enriched with
  | some (.structured g) =>
    let base : ContentDict :=
      [("slide_title", (dget g "slide_title").getD (.s slide.title)),
       ("chart_url", .s chart_placeholder),
       ("key_insights", (dget g "key_insights").getD (.arr []))]
    let base :=
      match hasField fields "subtitle", dget g "subtitle" with
      | true, some v => base ++ [("subtitle", v)]
      | _, _ => base
    match hasField fields "summary", dget g "summary" with
    | true, some v => base ++ [("summary", v)]
    | _, _ => base
  | some (.text t) =>
    let parsed := legacyListParse t maxItems maxChars
    chartTail slide fields chart_placeholder
      (if parsed.length < 2 then keyPointBullets slide maxItems maxChars else parsed)
  | none => chartTail slide fields chart_placeholder (keyPointBullets slide maxItems maxChars)

/-- `ContentTransformer._map_generic`. -/
def map_generic (slide : Slide) (fields : FieldSchema) (enriched : Option EnrichedSlide) : ContentDict :=
  match usableContent enriched with
  | some (.structured g) => g
  | uc =>
    (if hasField fields "slide_title" then
      [("slide_title", .s (truncate slide.title (fget fields "slide_title").max_chars false))]
     else [])
    ++ (if hasField fields "subtitle" then
      [("subtitle", .s (truncate slide.narrative (fget fields "subtitle").max_chars false))]
     else [])
    ++ (if hasField fields "bullets" then
      [("bullets", .arr ((match uc with
        | some (.text t) =>
          let parsed := legacyListParse t (fget fields "bullets").max_items
            (fget fields "bullets").max_chars_per_item
          if 2 ≤ parsed.length then parsed
          else keyPointBullets slide (fget fields "bullets").max_items
            (fget fields "bullets").max_chars_per_item
        | _ => keyPointBullets slide (fget fields "bullets").max_items
            (fget fields "bullets").max_chars_per_item).map Value.s))]
     else [])

/-- `ContentTransformer._map_content_to_layout` dispatch. -/
def map_content_to_layout (now : PyStr) (slide : Slide) (layout_id : String)
    (content_fields : FieldSchema) (presentation : PresentationStrawman)
    (enriched : Option EnrichedSlide) : ContentDict :=
  if layout_id = "L01" then map_title_slide now slide content_fields presentation enriched
  else if layout_id = "L02" then map_section_divider slide content_fields presentation enriched
  else if layout_id = "L03" then map_closing_slide slide content_fields presentation enriched
  else if layout_id = "L04" then map_text_summary slide content_fields presentation enriched
  else if layout_id = "L05" then map_bullet_list slide content_fields presentation enriched
  else if layout_id = "L06" then map_numbered_list slide content_fields presentation enriched
  else if layout_id = "L10" then map_image_text slide content_fields presentation enriched
  else if layout_id = "L17" then map_chart_insights slide content_fields presentation enriched
  else map_generic slide content_fields enriched

/-- Output of `transform_slide`: `{"layout": ..., "content": ...}`. -/
structure TransformedSlide where
  layout : String
  content : ContentDict

/-- `ContentTransformer.transform_slide`.  The `LayoutSchemaManager`
(`src/utils/layout_schema_manager.py`, not in the tree) is modelled from the
spec as an explicit `getSchema` mapping from layout id to that layout's
`content_schema`. -/
def transform_slide (getSchema : String → FieldSchema) (now : PyStr) (slide : Slide)
    (layout_id : String) (presentation : PresentationStrawman)
    (enriched : Option EnrichedSlide) : TransformedSlide :=
  { layout := layout_id,
    content := map_content_to_layout now slide layout_id (getSchema layout_id)
      presentation enriched }

/-- The deck-builder payload `{"title": ..., "slides": [...]}`. -/
structure DeckPayload where
  title : PyStr
  slides : List TransformedSlide

/-- The position-based layout fallback inside `transform_presentation`
(used only when a slide has no assigned `layout_id`). -/
def fallbackLayoutId (idx total : Nat) (slide : Slide) : String :=
  if idx = 0 then "L01"
  else if idx = total - 1 then "L03"
  else if slide.slide_type = "section_divider" then "L02"
  else "L05"

/-- `ContentTransformer.transform_presentation`.  The per-slide enriched
lookup `enriched_data.enriched_slides[idx]` is modelled totally via `get?`. -/
def transform_presentation (getSchema : String → FieldSchema) (now : PyStr)
    (strawman : PresentationStrawman)
    (enriched_data : Option EnrichedPresentationStrawman) : DeckPayload :=
  { title := strawman.main_title,
    slides := strawman.slides.mapIdx (fun idx slide =>
      let layout_id :=
        match slide.layout_id with
        | some l => if l = "" then fallbackLayoutId idx strawman.slides.length slide else l
        | none => fallbackLayoutId idx strawman.slides.length slide
      let enriched_slide :=
        match enriched_data with
        | some ed => if ed.enriched_slides.isEmpty then none else ed.enriched_slides.get? idx
        | none => none
      transform_slide getSchema now slide layout_id strawman enriched_slide) }

/-! ## C2: structured-content pass-through -/

theorem lookup_append_left {α β : Type} [BEq α] (l1 l2 : List (α × β)) (k : α) (v : β)
    (h : List.lookup k l1 = some v) : List.lookup k (l1 ++ l2) = some v := by
  induction l1 with
  | nil => simp [List.lookup] at h
  | cons p rest ih =>
    rw [List.cons_append, List.lookup]
    rw [List.lookup] at h
    cases hk : (k == p.1) with
    | true => simpa [hk] using h
    | false => exact ih (by simpa [hk] using h)

def ceSlide : Slide :=
  { slide_number := 1, slide_id := "slide_001", title := "Intro".toList,
    slide_type := "title_slide", layout_id := some "L01",
    narrative := "A narrative".toList, key_points := [],
    analytics_needed := none, visuals_needed := none, diagrams_needed := none,
    tables_needed := none, structure_preference := none }

def cePres : PresentationStrawman :=
  { main_title := "Quarterly Review".toList, overall_theme := "Informative".toList,
    slides := [ceSlide], design_suggestions := [],
    target_audience := "Executives".toList, presentation_duration := 10 }

/-- A plausible L01 content schema instance (the catalog itself is not in the
tree; the failure below holds for any schema because `_map_title_slide` never
reads the generated content). -/
def ceL01Fields : FieldSchema :=
  [("main_title", ⟨100, 0, 0⟩), ("subtitle", ⟨150, 0, 0⟩),
   ("presenter_name", ⟨50, 0, 0⟩), ("organization", ⟨50, 0, 0⟩), ("date", ⟨20, 0, 0⟩)]

def ceGen : List (String × Value) :=
  [("main_title", .s "GENERATED TITLE".toList)]

def ceEnriched : EnrichedSlide :=
  { original_slide := ceSlide, slide_id := "slide_001",
    generated_text := some ⟨.structured ceGen⟩, has_text_failure := false }

/-- Counterexample to C2: for the title layout `L01`, `main_title` is present
in both the structured generated content and the schema, yet `transform_slide`
outputs the strawman title, not the generated value — `_map_title_slide`
never consults the enriched slide. -/
theorem structured_passthrough_title_ce :
    dget (transform_slide (fun _ => ceL01Fields) ("2026-10-12".toList) ceSlide "L01"
        cePres (some ceEnriched)).content "main_title"
      = some (.s "Quarterly Review".toList)
    ∧ dget ceGen "main_title" = some (.s "GENERATED TITLE".toList)
    ∧ hasField ceL01Fields "main_title" = true
    ∧ ("Quarterly Review".toList : PyStr) ≠ "GENERATED TITLE".toList := by
  exact ⟨rfl, rfl, rfl, by decide⟩

/-- C2 amended: the pass-through law holds for the fields each
enriched-aware mapper handles — `L04` (`slide_title`, `main_text_content`,
`subtitle`, `summary`), `L05` (`slide_title`, `bullets`, `subtitle`),
`L06` (`slide_title`, `numbered_items`, `subtitle`), `L10` (`slide_title`,
`text_content`, `subtitle`), `L17` (`slide_title`, `key_insights`,
`subtitle`, `summary`), and every layout without a dedicated mapper
(whole-dictionary pass-through) — but the positional mappers
`L01`/`L02`/`L03` ignore generated content entirely (their output is
identical with and without it), and the `L10` image and `L17` chart fields
are placeholders, independent of the generated content. -/
theorem structured_content_passthrough
    (getSchema : String → FieldSchema) (now : PyStr) (slide : Slide)
    (pres : PresentationStrawman) (e : EnrichedSlide) (g : List (String × Value))
    (he : e.generated_text = some ⟨GenContent.structured g⟩)
    (hf : e.has_text_failure = false) :
    (∀ v, dget g "slide_title" = some v →
      dget (transform_slide getSchema now slide "L04" pres (some e)).content "slide_title" = some v)
    ∧ (∀ v, dget g "main_text_content" = some v →
      dget (transform_slide getSchema now slide "L04" pres (some e)).content "main_text_content" = some v)
    ∧ (∀ v, hasField (getSchema "L04") "subtitle" = true → dget g "subtitle" = some v →
      dget (transform_slide getSchema now slide "L04" pres (some e)).content "subtitle" = some v)
    ∧ (∀ v, hasField (getSchema "L04") "summary" = true → dget g "summary" = some v →
      dget (transform_slide getSchema now slide "L04" pres (some e)).content "summary" = some v)
    ∧ (∀ v, dget g "slide_title" = some v →
      dget (transform_slide getSchema now slide "L05" pres (some e)).content "slide_title" = some v)
    ∧ (∀ v, dget g "bullets" = some v →
      dget (transform_slide getSchema now slide "L05" pres (some e)).content "bullets" = some v)
    ∧ (∀ v, hasField (getSchema "L05") "subtitle" = true → dget g "subtitle" = some v →
      dget (transform_slide getSchema now slide "L05" pres (some e)).content "subtitle" = some v)
    ∧ (∀ v, dget g "slide_title" = some v →
      dget (transform_slide getSchema now slide "L06" pres (some e)).content "slide_title" = some v)
    ∧ (∀ v, dget g "numbered_items" = some v →
      dget (transform_slide getSchema now slide "L06" pres (some e)).content "numbered_items" = some v)
    ∧ (∀ v, hasField (getSchema "L06") "subtitle" = true → dget g "subtitle" = some v →
      dget (transform_slide getSchema now slide "L06" pres (some e)).content "subtitle" = some v)
    ∧ (∀ v, dget g "slide_title" = some v →
      dget (transform_slide getSchema now slide "L10" pres (some e)).content "slide_title" = some v)
    ∧ (∀ v, dget g "text_content" = some v →
      dget (transform_slide getSchema now slide "L10" pres (some e)).content "text_content" = some v)
    ∧ (∀ v, hasField (getSchema "L10") "subtitle" = true → dget g "subtitle" = some v →
      dget (transform_slide getSchema now slide "L10" pres (some e)).content "subtitle" = some v)
    ∧ (∀ v, dget g "slide_title" = some v →
      dget (transform_slide getSchema now slide "L17" pres (some e)).content "slide_title" = some v)
    ∧ (∀ v, dget g "key_insights" = some v →
      dget (transform_slide getSchema now slide "L17" pres (some e)).content "key_insights" = some v)
    ∧ (∀ v, hasField (getSchema "L17") "subtitle" = true → dget g "subtitle" = some v →
      dget (transform_slide getSchema now slide "L17" pres (some e)).content "subtitle" = some v)
    ∧ (∀ v, hasField (getSchema "L17") "summary" = true → dget g "summary" = some v →
      dget (transform_slide getSchema now slide "L17" pres (some e)).content "summary" = some v)
    ∧ (∀ lid : String, lid ≠ "L01" → lid ≠ "L02" → lid ≠ "L03" → lid ≠ "L04" → lid ≠ "L05" →
      lid ≠ "L06" → lid ≠ "L10" → lid ≠ "L17" →
      (transform_slide getSchema now slide lid pres (some e)).content = g)
    ∧ (transform_slide getSchema now slide "L01" pres (some e)).content
      = (transform_slide getSchema now slide "L01" pres none).content
    ∧ (transform_slide getSchema now slide "L02" pres (some e)).content
      = (transform_slide getSchema now slide "L02" pres none).content
    ∧ (transform_slide getSchema now slide "L03" pres (some e)).content
      = (transform_slide getSchema now slide "L03" pres none).content
    ∧ dget (transform_slide getSchema now slide "L10" pres (some e)).content "image"
      = dget (transform_slide getSchema now slide "L10" pres none).content "image"
    ∧ dget (transform_slide getSchema now slide "L17" pres (some e)).content "chart_url"
      = dget (transform_slide getSchema now slide "L17" pres none).content "chart_url" := by
  refine ⟨?_, ?_, ?_, ?_, ?_, ?_, ?_, ?_, ?_, ?_, ?_, ?_, ?_, ?_, ?_, ?_, ?_, ?_,
    rfl, rfl, rfl, ?_, ?_⟩
  · intro v hv
    simp only [dget] at hv
    cases hsub : hasField (getSchema "L04") "subtitle" <;>
      cases hsv : List.lookup "subtitle" g <;>
        cases hsum : hasField (getSchema "L04") "summary" <;>
          cases hgv : List.lookup "summary" g <;>
            simp [transform_slide, map_content_to_layout, map_text_summary, usableContent,
              he, hf, dget, List.lookup, hv, hsub, hsv, hsum, hgv]
  · intro v hv
    simp only [dget] at hv
    cases hsub : hasField (getSchema "L04") "subtitle" <;>
      cases hsv : List.lookup "subtitle" g <;>
        cases hsum : hasField (getSchema "L04") "summary" <;>
          cases hgv : List.lookup "summary" g <;>
            simp [transform_slide, map_content_to_layout, map_text_summary, usableContent,
              he, hf, dget, List.lookup, hv, hsub, hsv, hsum, hgv]
  · intro v hsub hv
    simp only [dget] at hv
    cases hsum : hasField (getSchema "L04") "summary" <;>
      cases hgv : List.lookup "summary" g <;>
        simp [transform_slide, map_content_to_layout, map_text_summary, usableContent,
          he, hf, dget, List.lookup, hv, hsub, hsum, hgv]
  · intro v hsum hv
    simp only [dget] at hv
    cases hsub : hasField (getSchema "L04") "subtitle" <;>
      cases hsv : List.lookup "subtitle" g <;>
        simp [transform_slide, map_content_to_layout, map_text_summary, usableContent,
          he, hf, dget, List.lookup, hv, hsub, hsv, hsum]
  · intro v hv
    simp only [dget] at hv
    cases hsub : hasField (getSchema "L05") "subtitle" <;>
      cases hsv : List.lookup "subtitle" g <;>
        simp [transform_slide, map_content_to_layout, map_bullet_list, usableContent,
          he, hf, dget, List.lookup, hv, hsub, hsv]
  · intro v hv
    simp only [dget] at hv
    cases hsub : hasField (getSchema "L05") "subtitle" <;>
      cases hsv : List.lookup "subtitle" g <;>
        simp [transform_slide, map_content_to_layout, map_bullet_list, usableContent,
          he, hf, dget, List.lookup, hv, hsub, hsv]
  · intro v hsub hv
    simp only [dget] at hv
    simp [transform_slide, map_content_to_layout, map_bullet_list, usableContent,
      he, hf, dget, List.lookup, hv, hsub]
  · intro v hv
    simp only [dget] at hv
    cases hsub : hasField (getSchema "L06") "subtitle" <;>
      cases hsv : List.lookup "subtitle" g <;>
        simp [transform_slide, map_content_to_layout, map_numbered_list, usableContent,
          he, hf, dget, List.lookup, hv, hsub, hsv]
  · intro v hv
    simp only [dget] at hv
    cases hsub : hasField (getSchema "L06") "subtitle" <;>
      cases hsv : List.lookup "subtitle" g <;>
        simp [transform_slide, map_content_to_layout, map_numbered_list, usableContent,
          he, hf, dget, List.lookup, hv, hsub, hsv]
  · intro v hsub hv
    simp only [dget] at hv
    simp [transform_slide, map_content_to_layout, map_numbered_list, usableContent,
      he, hf, dget, List.lookup, hv, hsub]
  · intro v hv
    simp only [dget] at hv
    cases hsub : hasField (getSchema "L10") "subtitle" <;>
      cases hsv : List.lookup "subtitle" g <;>
        simp [transform_slide, map_content_to_layout, map_image_text, usableContent,
          he, hf, dget, List.lookup, hv, hsub, hsv]
  · intro v hv
    simp only [dget] at hv
    cases hsub : hasField (getSchema "L10") "subtitle" <;>
      cases hsv : List.lookup "subtitle" g <;>
        simp [transform_slide, map_content_to_layout, map_image_text, usableContent,
          he, hf, dget, List.lookup, hv, hsub, hsv]
  · intro v hsub hv
    simp only [dget] at hv
    simp [transform_slide, map_content_to_layout, map_image_text, usableContent,
      he, hf, dget, List.lookup, hv, hsub]
  · intro v hv
    simp only [dget] at hv
    cases hsub : hasField (getSchema "L17") "subtitle" <;>
      cases hsv : List.lookup "subtitle" g <;>
        cases hsum : hasField (getSchema "L17") "summary" <;>
          cases hgv : List.lookup "summary" g <;>
            simp [transform_slide, map_content_to_layout, map_chart_insights, usableContent,
              he, hf, dget, List.lookup, hv, hsub, hsv, hsum, hgv]
  · intro v hv
    simp only [dget] at hv
    cases hsub : hasField (getSchema "L17") "subtitle" <;>
      cases hsv : List.lookup "subtitle" g <;>
        cases hsum : hasField (getSchema "L17") "summary" <;>
          cases hgv : List.lookup "summary" g <;>
            simp [transform_slide, map_content_to_layout, map_chart_insights, usableContent,
              he, hf, dget, List.lookup, hv, hsub, hsv, hsum, hgv]
  · intro v hsub hv
    simp only [dget] at hv
    cases hsum : hasField (getSchema "L17") "summary" <;>
      cases hgv : List.lookup "summary" g <;>
        simp [transform_slide, map_content_to_layout, map_chart_insights, usableContent,
          he, hf, dget, List.lookup, hv, hsub, hsum, hgv]
  · intro v hsum hv
    simp only [dget] at hv
    cases hsub : hasField (getSchema "L17") "subtitle" <;>
      cases hsv : List.lookup "subtitle" g <;>
        simp [transform_slide, map_content_to_layout, map_chart_insights, usableContent,
          he, hf, dget, List.lookup, hv, hsub, hsv, hsum]
  · intro lid h1 h2 h3 h4 h5 h6 h7 h8
    simp [transform_slide, map_content_to_layout, map_generic, usableContent,
      he, hf, h1, h2, h3, h4, h5, h6, h7, h8]
  · cases hsub : hasField (getSchema "L10") "subtitle" <;>
      cases hsv : List.lookup "subtitle" g <;>
        simp [transform_slide, map_content_to_layout, map_image_text, imageTextTail,
          usableContent, he, hf, dget, List.lookup, hsub, hsv]
  · cases hsub : hasField (getSchema "L17") "subtitle" <;>
      cases hsv : List.lookup "subtitle" g <;>
        cases hsum : hasField (getSchema "L17") "summary" <;>
          cases hgv : List.lookup "summary" g <;>
            simp [transform_slide, map_content_to_layout, map_chart_insights, chartTail,
              usableContent, he, hf, dget, List.lookup, hsub, hsv, hsum, hgv]

def wGen : List (String × Value) :=
  [("slide_title", .s "Generated title".toList),
   ("bullets", .arr [.s "<b>Point one</b>".toList, .s "Point two".toList]),
   ("subtitle", .s "Generated subtitle".toList)]

def wEnriched : EnrichedSlide :=
  { original_slide := ceSlide, slide_id := "slide_001",
    generated_text := some ⟨.structured wGen⟩, has_text_failure := false }

def wL05Fields : FieldSchema :=
  [("slide_title", ⟨60, 0, 0⟩), ("subtitle", ⟨120, 0, 0⟩), ("bullets", ⟨0, 5, 150⟩)]

/-- Witness for the amended C2 on a concrete bullet-list slide: all three
handled fields pass through byte-for-byte. -/
theorem structured_content_passthrough_witness :
    dget (transform_slide (fun _ => wL05Fields) ("2026-10-12".toList) ceSlide "L05"
        cePres (some wEnriched)).content "bullets"
      = some (.arr [.s "<b>Point one</b>".toList, .s "Point two".toList])
    ∧ dget (transform_slide (fun _ => wL05Fields) ("2026-10-12".toList) ceSlide "L05"
        cePres (some wEnriched)).content "subtitle"
      = some (.s "Generated subtitle".toList) := by
  obtain ⟨-, -, -, -, -, h6, h7, -⟩ := structured_content_passthrough (fun _ => wL05Fields)
    ("2026-10-12".toList) ceSlide cePres wEnriched wGen rfl rfl
  exact ⟨h6 _ rfl, h7 _ rfl rfl⟩

/-! ## C7: legacy string parsing -/

/-- The legacy list parse as a declarative pipeline (split, strip, demark,
keep strictly-longer-than-10 lines, cap, truncate). -/
def legacyPipeline (content : PyStr) (maxItems maxChars : Nat) : List PyStr :=
  ((((content.splitOn '\n').map (fun l => deMark (pyStrip l))).filter
      (fun l => 10 < l.length)).take maxItems).map (fun l => truncate l maxChars false)

/-- The legacy list parse as claim C7 words it: lines SHORTER than 10
characters are dropped (a 10-character line is kept). -/
def legacyPipelineClaimed (content : PyStr) (maxItems maxChars : Nat) : List PyStr :=
  ((((content.splitOn '\n').map (fun l => deMark (pyStrip l))).filter
      (fun l => 10 ≤ l.length)).take maxItems).map (fun l => truncate l maxChars false)

theorem bulletLoopGo_spec (maxItems maxChars : Nat) (lines : List PyStr) :
    ∀ acc : List PyStr, acc.length < maxItems →
    bulletLoopGo maxItems maxChars acc lines
      = acc ++ (((lines.map (fun l => deMark (pyStrip l))).filter
          (fun l => 10 < l.length)).take (maxItems - acc.length)).map
            (fun l => truncate l maxChars false) := by
  induction lines with
  | nil => intro acc hacc; simp [bulletLoopGo]
  | cons line rest ih =>
    intro acc hacc
    simp only [bulletLoopGo]
    by_cases hcond : deMark (pyStrip line) ≠ [] ∧ 10 < (deMark (pyStrip line)).length
    · rw [if_pos hcond]
      by_cases hfull : maxItems ≤ (acc ++ [truncate (deMark (pyStrip line)) maxChars false]).length
      · rw [if_pos hfull]
        have hmi : maxItems = acc.length + 1 := by
          simp only [List.length_append, List.length_cons, List.length_nil] at hfull
          omega
        simp [List.filter_cons, hcond.2, hmi, List.take_succ_cons]
      · rw [if_neg hfull]
        have hlt : (acc ++ [truncate (deMark (pyStrip line)) maxChars false]).length < maxItems := by
          omega
        rw [ih _ hlt]
        simp only [List.map_cons, List.filter_cons, decide_eq_true_eq, if_pos hcond.2,
          List.length_append, List.length_cons, List.length_nil]
        have hsub : maxItems - acc.length = (maxItems - (acc.length + 1)) + 1 := by omega
        rw [hsub, List.take_succ_cons]
        simp
    · rw [if_neg hcond]
      rw [ih _ hacc]
      have hdrop : ¬(10 < (deMark (pyStrip line)).length) := by
        intro hx
        refine hcond ⟨?_, hx⟩
        intro he
        rw [he] at hx
        simp at hx
      simp [List.filter_cons, hdrop]

/-- The imperative legacy parse loop equals the declarative pipeline
(for any positive item cap). -/
theorem legacyListParse_eq_pipeline (content : PyStr) (maxItems maxChars : Nat)
    (h : 1 ≤ maxItems) :
    legacyListParse content maxItems maxChars = legacyPipeline content maxItems maxChars := by
  unfold legacyListParse legacyPipeline
  rw [bulletLoopGo_spec maxItems maxChars _ [] (by simpa using h)]
  simp

theorem bulletLoopGo_items_le (maxItems maxChars : Nat) (lines : List PyStr) :
    ∀ acc : List PyStr, (∀ x ∈ acc, x.length ≤ maxChars) →
    ∀ b ∈ bulletLoopGo maxItems maxChars acc lines, b.length ≤ maxChars := by
  induction lines with
  | nil => intro acc hacc; simpa [bulletLoopGo] using hacc
  | cons line rest ih =>
    intro acc hacc
    simp only [bulletLoopGo]
    by_cases hcond : deMark (pyStrip line) ≠ [] ∧ 10 < (deMark (pyStrip line)).length
    · rw [if_pos hcond]
      have hacc2 : ∀ x ∈ acc ++ [truncate (deMark (pyStrip line)) maxChars false],
          x.length ≤ maxChars := by
        intro x hx
        rcases List.mem_append.mp hx with hx | hx
        · exact hacc x hx
        · simp at hx
          subst hx
          have := truncate_length_le (deMark (pyStrip line)) maxChars false
          simpa [ellipsis] using this
      by_cases hfull : maxItems ≤ (acc ++ [truncate (deMark (pyStrip line)) maxChars false]).length
      · rw [if_pos hfull]
        exact hacc2
      · rw [if_neg hfull]
        exact ih _ hacc2
    · rw [if_neg hcond]
      exact ih _ hacc

theorem splitFirst_of_not_mem (sep : Char) (l : PyStr) (h : sep ∉ l) :
    splitFirst sep l = none := by
  induction l with
  | nil => rfl
  | cons c rest ih =>
    rw [splitFirst]
    simp only [List.mem_cons, not_or] at h
    rw [if_neg (fun e => h.1 e.symm)]
    rw [ih h.2]

theorem splitFirst_of_decomp (sep : Char) (a b : PyStr) (ha : sep ∉ a) :
    splitFirst sep (a ++ sep :: b) = some (a, b) := by
  induction a with
  | nil => simp [splitFirst]
  | cons c as ih =>
    simp only [List.mem_cons, not_or] at ha
    rw [List.cons_append, splitFirst]
    rw [if_neg (fun e => ha.1 e.symm)]
    rw [ih ha.2]

def c7Slide : Slide :=
  { slide_number := 2, slide_id := "slide_002", title := "Findings".toList,
    slide_type := "content_heavy", layout_id := some "L05",
    narrative := "Narrative".toList,
    key_points := ["FALLBACK POINT ONE".toList, "FALLBACK POINT TWO".toList],
    analytics_needed := none, visuals_needed := none, diagrams_needed := none,
    tables_needed := none, structure_preference := none }

def c7Content : PyStr := "aaaaaaaaaa\nbbbbbbbbbb\ncccccccccc".toList

def c7Enriched : EnrichedSlide :=
  { original_slide := c7Slide, slide_id := "slide_002",
    generated_text := some ⟨.text c7Content⟩, has_text_failure := false }

/-- Counterexample to C7: the code keeps only lines STRICTLY longer than 10
characters (`len(line) > 10`), so three 10-character lines all parse to
nothing and the mapper falls back to the raw key points — while the claim
("lines shorter than 10 characters are dropped") would keep all three. -/
theorem legacy_ten_char_line_ce :
    legacyListParse c7Content 5 150 = []
    ∧ legacyPipelineClaimed c7Content 5 150
      = ["aaaaaaaaaa".toList, "bbbbbbbbbb".toList, "cccccccccc".toList]
    ∧ ("aaaaaaaaaa".toList : PyStr).length = 10
    ∧ dget (map_bullet_list c7Slide wL05Fields cePres (some c7Enriched)) "bullets"
      = some (.arr [.s "FALLBACK POINT ONE".toList, .s "FALLBACK POINT TWO".toList]) := by
  exact ⟨by decide, by decide, by decide, rfl⟩

/-- C7 amended: the legacy parse keeps only non-empty demarked lines of
MORE than 10 characters, capped at `max_items` (each truncated to the
per-item cap), falling back to the slide's raw key points when fewer than 2
items parse; a numbered line splits at the first `':'` anywhere, else at the
first `'.'` anywhere with the remainder split at the first `'-'` into
title/description (title defaulting to `"Step N"` when no `'-'` follows the
`'.'`, or when neither delimiter occurs). -/
theorem legacy_parsing_amended :
    (∀ content maxItems maxChars, 1 ≤ maxItems →
      legacyListParse content maxItems maxChars = legacyPipeline content maxItems maxChars)
    ∧ (∀ content maxItems maxChars, 1 ≤ maxItems →
      (legacyListParse content maxItems maxChars).length ≤ maxItems)
    ∧ (∀ content maxItems maxChars b, b ∈ legacyListParse content maxItems maxChars →
      b.length ≤ maxChars)
    ∧ (∀ slide fields pres t (e : EnrichedSlide),
      e.generated_text = some ⟨GenContent.text t⟩ → e.has_text_failure = false →
      dget (map_bullet_list slide fields pres (some e)) "bullets"
        = some (.arr ((if (legacyListParse t (fget fields "bullets").max_items
              (fget fields "bullets").max_chars_per_item).length < 2
            then keyPointBullets slide (fget fields "bullets").max_items
              (fget fields "bullets").max_chars_per_item
            else legacyListParse t (fget fields "bullets").max_items
              (fget fields "bullets").max_chars_per_item).map Value.s)))
    ∧ (∀ idx (a b : PyStr), (':' : Char) ∉ a →
      numberedItemOfLine idx (a ++ ':' :: b)
        = .obj [("title", .s (truncate (pyStrip a) 40 false)),
                ("description", .s (truncate (pyStrip b) 150 false))])
    ∧ (∀ idx (line : PyStr), (':' : Char) ∉ line → ('.' : Char) ∉ line →
      numberedItemOfLine idx line
        = .obj [("title", .s (truncate (pyStrip (stepTitle idx)) 40 false)),
                ("description", .s (truncate (pyStrip line) 150 false))])
    ∧ (∀ idx (p q : PyStr), (':' : Char) ∉ p ++ '.' :: q → ('.' : Char) ∉ p →
        (∀ a2 b2, pyStrip q = a2 ++ '-' :: b2 → ('-' : Char) ∉ a2 →
          numberedItemOfLine idx (p ++ '.' :: q)
            = .obj [("title", .s (truncate (pyStrip a2) 40 false)),
                    ("description", .s (truncate (pyStrip b2) 150 false))])
        ∧ (('-' : Char) ∉ pyStrip q →
          numberedItemOfLine idx (p ++ '.' :: q)
            = .obj [("title", .s (truncate (pyStrip (stepTitle idx)) 40 false)),
                    ("description", .s (truncate (pyStrip (pyStrip q)) 150 false))]))
    ∧ (∀ slide fields pres t (e : EnrichedSlide),
      e.generated_text = some ⟨GenContent.text t⟩ → e.has_text_failure = false →
      dget (map_numbered_list slide fields pres (some e)) "numbered_items"
        = some (.arr (
          if (((((t.splitOn '\n').map pyStrip).filter (fun l => l ≠ [])).take
                (fget fields "numbered_items").max_items).mapIdx numberedItemOfLine).length < 2
          then (slide.key_points.take (fget fields "numbered_items").max_items).mapIdx
            numberedItemOfPoint
          else ((((t.splitOn '\n').map pyStrip).filter (fun l => l ≠ [])).take
                (fget fields "numbered_items").max_items).mapIdx numberedItemOfLine))) := by
  refine ⟨?_, ?_, ?_, ?_, ?_, ?_, ?_, ?_⟩
  · intro content maxItems maxChars h
    exact legacyListParse_eq_pipeline content maxItems maxChars h
  · intro content maxItems maxChars h
    rw [legacyListParse_eq_pipeline content maxItems maxChars h]
    unfold legacyPipeline
    rw [List.length_map]
    exact List.length_take_le _ _
  · intro content maxItems maxChars b hb
    exact bulletLoopGo_items_le maxItems maxChars _ [] (by simp) b hb
  · intro slide fields pres t e he hf
    simp [map_bullet_list, usableContent, he, hf, bulletTail, dget, List.lookup]
  · intro idx a b ha
    unfold numberedItemOfLine
    rw [splitFirst_of_decomp ':' a b ha]
  · intro idx line h1 h2
    unfold numberedItemOfLine
    rw [splitFirst_of_not_mem ':' line h1, splitFirst_of_not_mem '.' line h2]
  · intro idx p q hcolon hdot
    constructor
    · intro a2 b2 heq ha2
      unfold numberedItemOfLine
      rw [splitFirst_of_not_mem ':' _ hcolon, splitFirst_of_decomp '.' p q hdot]
      simp only [heq, splitFirst_of_decomp '-' a2 b2 ha2]
    · intro hdash
      unfold numberedItemOfLine
      rw [splitFirst_of_not_mem ':' _ hcolon, splitFirst_of_decomp '.' p q hdot]
      simp only [splitFirst_of_not_mem '-' _ hdash]
  · intro slide fields pres t e he hf
    simp [map_numbered_list, usableContent, he, hf, numberedTail, dget, List.lookup]

/-- Witness for the amended C7 on concrete inputs: a marker-stripped legacy
parse, and a `':'`-delimited numbered line. -/
theorem legacy_parsing_amended_witness :
    legacyListParse ("• first long point here\n• second long point\nxy".toList) 5 100
      = legacyPipeline ("• first long point here\n• second long point\nxy".toList) 5 100
    ∧ numberedItemOfLine 0 ("Phase one".toList ++ ':' :: " gather data".toList)
      = .obj [("title", .s (truncate (pyStrip "Phase one".toList) 40 false)),
              ("description", .s (truncate (pyStrip " gather data".toList) 150 false))] := by
  exact ⟨legacy_parsing_amended.1 _ 5 100 (by decide),
    legacy_parsing_amended.2.2.2.2.1 0 _ _ (by decide)⟩

/-! ## Layout selection (`DirectorAgent._select_layout_by_use_case`) -/

/-- `LayoutSelection` structured output (confidence as an exact rational). -/
structure LayoutSelection where
  layout_id : String
  reasoning : PyStr
  confidence : ℚ
deriving DecidableEq

/-- `DirectorAgent._select_layout_by_use_case`.  The semantic-matching model
call is the oracle `ai`; the returned flag records whether that call was
made. -/
def select_layout_by_use_case (slide : Slide) (position : String)
    (ai : Except PyStr LayoutSelection) : LayoutSelection × Bool :=
  if position = "first" then
    ({ layout_id := "L01", reasoning := "First slide - using title layout".toList,
       confidence := 1 }, false)
  else if position = "last" then
    ({ layout_id := "L03", reasoning := "Last slide - using closing layout".toList,
       confidence := 1 }, false)
  else if slide.slide_type = "section_divider" then
    ({ layout_id := "L02", reasoning := "Section divider slide".toList,
       confidence := 1 }, false)
  else
    match ai with
    | .ok sel => (sel, true)
    | .error e =>
      ({ layout_id := "L05",
         reasoning := "Fallback layout after AI selection error: ".toList ++ e.take 100,
         confidence := 1/2 }, true)

/-- C4: position `first` always yields the title layout `L01` at confidence
1.0 without invoking the model, position `last` the closing layout `L03`, and
a `section_divider` slide at any non-first/non-last position the divider
layout `L02`, regardless of slide content and of what the model would
answer. -/
theorem positional_layout_overrides (slide : Slide) (ai : Except PyStr LayoutSelection) :
    select_layout_by_use_case slide "first" ai
      = ({ layout_id := "L01", reasoning := "First slide - using title layout".toList,
           confidence := 1 }, false)
    ∧ select_layout_by_use_case slide "last" ai
      = ({ layout_id := "L03", reasoning := "Last slide - using closing layout".toList,
           confidence := 1 }, false)
    ∧ (∀ position : String, position ≠ "first" → position ≠ "last" →
      slide.slide_type = "section_divider" →
      select_layout_by_use_case slide position ai
        = ({ layout_id := "L02", reasoning := "Section divider slide".toList,
             confidence := 1 }, false)) := by
  refine ⟨rfl, rfl, ?_⟩
  intro position h1 h2 hdiv
  simp [select_layout_by_use_case, h1, h2, hdiv]

/-- Witness for C4: a divider slide at `middle` with an erroring model call
still gets `L02` at confidence 1.0 with no model involvement. -/
theorem positional_layout_overrides_witness :
    select_layout_by_use_case
      { c7Slide with slide_type := "section_divider" } "middle"
      (Except.error "model down".toList)
      = ({ layout_id := "L02", reasoning := "Section divider slide".toList,
           confidence := 1 }, false) := by
  exact (positional_layout_overrides { c7Slide with slide_type := "section_divider" }
    (Except.error "model down".toList)).2.2 "middle" (by decide) (by decide) rfl

/-! ## Stage 6 content generation (`DirectorAgent.process`, CONTENT_GENERATION) -/

/-- The per-slide text-generation loop: each slide is tried independently
(`gen i s = none` models the Text Service call raising for slide `i`); the
loop returns the enriched slides in order plus the success/failure counters. -/
def genLoop (gen : Nat → Slide → Option GeneratedText) :
    Nat → List Slide → List EnrichedSlide × Nat × Nat
  | _, [] => ([], 0, 0)
  | i, s :: rest =>
    let r := genLoop gen (i + 1) rest
    match gen i s with
    | some t =>
      ({ original_slide := s, slide_id := s.slide_id, generated_text := some t,
         has_text_failure := false } :: r.1, r.2.1 + 1, r.2.2)
    | none =>
      ({ original_slide := s, slide_id := s.slide_id, generated_text := none,
         has_text_failure := true } :: r.1, r.2.1, r.2.2 + 1)

/-- The CONTENT_GENERATION branch up to the enriched strawman (counts,
order, flags); `elapsed` stands for the measured wall-clock time. -/
def content_generation_stage (strawman : PresentationStrawman)
    (gen : Nat → Slide → Option GeneratedText) (elapsed : Nat) :
    EnrichedPresentationStrawman :=
  { original_strawman := strawman,
    enriched_slides := (genLoop gen 0 strawman.slides).1,
    generation_metadata :=
      { total_slides := strawman.slides.length,
        successful_slides := (genLoop gen 0 strawman.slides).2.1,
        failed_slides := (genLoop gen 0 strawman.slides).2.2,
        generation_time_seconds := elapsed } }

/-- Specification-side count of slides whose text-generation call fails. -/
def failCount (gen : Nat → Slide → Option GeneratedText) : Nat → List Slide → Nat
  | _, [] => 0
  | i, s :: rest => (if (gen i s).isSome then 0 else 1) + failCount gen (i + 1) rest

theorem failCount_le (gen : Nat → Slide → Option GeneratedText) (ss : List Slide) :
    ∀ i, failCount gen i ss ≤ ss.length := by
  induction ss with
  | nil => intro i; simp [failCount]
  | cons s rest ih =>
    intro i
    rw [failCount]
    have := ih (i + 1)
    by_cases h : (gen i s).isSome
    · simp [h]
      omega
    · simp [h]
      omega

theorem genLoop_counts (gen : Nat → Slide → Option GeneratedText) (ss : List Slide) :
    ∀ i, (genLoop gen i ss).1.length = ss.length
      ∧ (genLoop gen i ss).1.map (fun e => e.original_slide) = ss
      ∧ (genLoop gen i ss).2.1 = ss.length - failCount gen i ss
      ∧ (genLoop gen i ss).2.2 = failCount gen i ss := by
  induction ss with
  | nil => intro i; simp [genLoop, failCount]
  | cons s rest ih =>
    intro i
    obtain ⟨ih1, ih2, ih3, ih4⟩ := ih (i + 1)
    have hle := failCount_le gen rest (i + 1)
    cases hg : gen i s with
    | some t =>
      simp only [genLoop, hg, failCount]
      refine ⟨by simpa using ih1, by simpa using ih2, ?_, ?_⟩ <;>
        simp [hg, ih3, ih4] <;> omega
    | none =>
      simp only [genLoop, hg, failCount]
      refine ⟨by simpa using ih1, by simpa using ih2, ?_, ?_⟩ <;>
        simp [hg, ih3, ih4] <;> omega

theorem genLoop_get (gen : Nat → Slide → Option GeneratedText) (ss : List Slide) :
    ∀ i j e s, (genLoop gen i ss).1.get? j = some e → ss.get? j = some s →
      e.has_text_failure = (gen (i + j) s).isNone
        ∧ e.generated_text = gen (i + j) s
        ∧ e.original_slide = s := by
  induction ss with
  | nil => intro i j e s he _; simp [genLoop] at he
  | cons hd rest ih =>
    intro i j e s he hs
    cases j with
    | zero =>
      obtain rfl : hd = s := by simpa using hs
      cases hg : gen i hd with
      | some t =>
        simp only [genLoop, hg] at he
        obtain rfl : _ = e := by simpa using he
        simp [hg]
      | none =>
        simp only [genLoop, hg] at he
        obtain rfl : _ = e := by simpa using he
        simp [hg]
    | succ j' =>
      have he' : (genLoop gen (i + 1) rest).1.get? j' = some e := by
        cases hg : gen i hd <;> simp only [genLoop, hg] at he <;> simpa using he
      have hs' : rest.get? j' = some s := by simpa using hs
      have := ih (i + 1) j' e s he' hs'
      have harith : i + 1 + j' = i + (j' + 1) := by omega
      rwa [harith] at this

/-- C3: over `N` slides with exactly `K` failing text-generation calls, the
enriched strawman has exactly `N` enriched slides in original order,
`successful_slides = N - K`, `failed_slides = K`, and each slide's failure
flag reflects exactly its own call — one failure never aborts the rest. -/
theorem content_generation_counts (strawman : PresentationStrawman)
    (gen : Nat → Slide → Option GeneratedText) (elapsed : Nat) :
    (content_generation_stage strawman gen elapsed).enriched_slides.length
      = strawman.slides.length
    ∧ (content_generation_stage strawman gen elapsed).enriched_slides.map
        (fun e => e.original_slide) = strawman.slides
    ∧ (content_generation_stage strawman gen elapsed).generation_metadata.total_slides
      = strawman.slides.length
    ∧ (content_generation_stage strawman gen elapsed).generation_metadata.successful_slides
      = strawman.slides.length - failCount gen 0 strawman.slides
    ∧ (content_generation_stage strawman gen elapsed).generation_metadata.failed_slides
      = failCount gen 0 strawman.slides
    ∧ (∀ j e s,
      (content_generation_stage strawman gen elapsed).enriched_slides.get? j = some e →
      strawman.slides.get? j = some s →
      e.has_text_failure = (gen j s).isNone ∧ e.generated_text = gen j s
        ∧ e.original_slide = s) := by
  obtain ⟨h1, h2, h3, h4⟩ := genLoop_counts gen strawman.slides 0
  refine ⟨h1, h2, rfl, h3, h4, ?_⟩
  intro j e s he hs
  have := genLoop_get gen strawman.slides 0 j e s he hs
  simpa using this

def w3Slide (n : Nat) (id : String) : Slide :=
  { slide_number := n, slide_id := id, title := "T".toList,
    slide_type := "content_heavy", layout_id := some "L05",
    narrative := "n".toList, key_points := ["one point".toList],
    analytics_needed := none, visuals_needed := none, diagrams_needed := none,
    tables_needed := none, structure_preference := none }

def w3Strawman : PresentationStrawman :=
  { main_title := "W".toList, overall_theme := [],
    slides := [w3Slide 1 "s1", w3Slide 2 "s2", w3Slide 3 "s3"],
    design_suggestions := [], target_audience := [], presentation_duration := 5 }

/-- An oracle where exactly the second slide's Text Service call fails. -/
def w3gen : Nat → Slide → Option GeneratedText :=
  fun i _ => if i = 1 then none else some ⟨.text "generated body text".toList⟩

/-- Witness for C3: three slides with one failure yield counts 2/1, three
entries in order, and the middle slide flagged. -/
theorem content_generation_counts_witness :
    (content_generation_stage w3Strawman w3gen 7).enriched_slides.length = 3
    ∧ (content_generation_stage w3Strawman w3gen 7).generation_metadata.successful_slides = 2
    ∧ (content_generation_stage w3Strawman w3gen 7).generation_metadata.failed_slides = 1
    ∧ ((content_generation_stage w3Strawman w3gen 7).enriched_slides.map
        (fun e => e.has_text_failure)) = [false, true, false] := by
  obtain ⟨h1, -, -, h4, h5, h6⟩ := content_generation_counts w3Strawman w3gen 7
  refine ⟨by rw [h1]; decide, by rw [h4]; decide, by rw [h5]; decide, ?_⟩
  have hb := (h6 1 _ _ rfl rfl).1
  exact rfl

/-! ## Stage 6 rendering fallback (`DirectorAgent.process`, CONTENT_GENERATION tail) -/

/-- The response dictionary assembled at the end of Stage 6. -/
structure Stage6Response where
  url : PyStr
  slide_count : Nat
  content_generated : Bool
  successful_slides : Option Nat
  failed_slides : Option Nat

/-- The rendering tail of the CONTENT_GENERATION branch:
`_send_enriched_to_layout_architect` is the oracle `sendEnriched`; on its
failure the code transforms the UNENRICHED strawman (placeholder content)
and calls the deck-builder again (`createFallback`); a failure of that second
call propagates (it is re-raised by the outer handler). -/
def stage6_finish (getSchema : String → FieldSchema) (now : PyStr)
    (enriched : EnrichedPresentationStrawman)
    (sendEnriched : EnrichedPresentationStrawman → Except PyStr PyStr)
    (createFallback : DeckPayload → Except PyStr PyStr) :
    Except PyStr Stage6Response :=
  match sendEnriched enriched with
  | .ok url =>
    .ok { url := url, slide_count := enriched.original_strawman.slides.length,
          content_generated := true,
          successful_slides := some enriched.generation_metadata.successful_slides,
          failed_slides := some enriched.generation_metadata.failed_slides }
  | .error _ =>
    match createFallback (transform_presentation getSchema now enriched.original_strawman none) with
    | .ok url =>
      .ok { url := url, slide_count := enriched.original_strawman.slides.length,
            content_generated := false, successful_slides := none, failed_slides := none }
    | .error e => .error e

/-- Counterexample to C8: when the enriched rendering call fails AND the
fallback deck-builder call also fails, the stage errors out — the failure is
NOT always recovered at the stage boundary with `content_generated=false`. -/
theorem rendering_fallback_ce :
    stage6_finish (fun _ => wL05Fields) ("2026-10-12".toList)
      (content_generation_stage w3Strawman w3gen 7)
      (fun _ => Except.error "deck-builder unreachable".toList)
      (fun _ => Except.error "deck-builder unreachable".toList)
    = Except.error "deck-builder unreachable".toList := by
  rfl

/-- C8 amended: when the enriched rendering call fails, the stage falls back
to rendering the UNENRICHED strawman (placeholder content) and, provided that
second call succeeds, returns a success response flagged
`content_generated = false`; if the fallback call also fails, the error
propagates. -/
theorem rendering_fallback_amended (getSchema : String → FieldSchema) (now : PyStr)
    (enriched : EnrichedPresentationStrawman)
    (sendEnriched : EnrichedPresentationStrawman → Except PyStr PyStr)
    (createFallback : DeckPayload → Except PyStr PyStr) (err : PyStr)
    (hsend : sendEnriched enriched = .error err) :
    (∀ url, createFallback (transform_presentation getSchema now
        enriched.original_strawman none) = .ok url →
      stage6_finish getSchema now enriched sendEnriched createFallback
        = .ok { url := url, slide_count := enriched.original_strawman.slides.length,
                content_generated := false, successful_slides := none,
                failed_slides := none })
    ∧ (∀ e2, createFallback (transform_presentation getSchema now
        enriched.original_strawman none) = .error e2 →
      stage6_finish getSchema now enriched sendEnriched createFallback
        = .error e2) := by
  constructor
  · intro url hfb
    unfold stage6_finish
    rw [hsend, hfb]
  · intro e2 hfb
    unfold stage6_finish
    rw [hsend, hfb]

/-- Witness for the amended C8: failed enriched render, successful fallback
render, concrete response with `content_generated = false`. -/
theorem rendering_fallback_amended_witness :
    stage6_finish (fun _ => wL05Fields) ("2026-10-12".toList)
      (content_generation_stage w3Strawman w3gen 7)
      (fun _ => Except.error "layout architect down".toList)
      (fun _ => Except.ok "https://decks.example/d/42".toList)
    = Except.ok { url := "https://decks.example/d/42".toList, slide_count := 3,
                  content_generated := false, successful_slides := none,
                  failed_slides := none } := by
  exact (rendering_fallback_amended (fun _ => wL05Fields) ("2026-10-12".toList)
    (content_generation_stage w3Strawman w3gen 7)
    (fun _ => Except.error "layout architect down".toList)
    (fun _ => Except.ok "https://decks.example/d/42".toList)
    ("layout architect down".toList) rfl).1 _ rfl

end Deckster
